import Mathlib

/-!
Verification of core behaviors of a lightweight VMM (Firecracker fork).
The definitions below are shallow embeddings of the Rust source:

* `api_server/src/parsed_request.rs`   — resource-id validation (`checked_id`)
* `vmm/src/translator/mod.rs`          — snapshot translator construction
* `vmm/src/lib.rs`                     — VMM lifecycle, machine config, block
                                         device attachment, snapshot pause path,
                                         process exit codes
* `vmm/src/rpc_interface/controllers.rs` — the runtime (post-boot) controller
* `cpuid/src/transformer/mod.rs`       — the CPUID entry-processing pass

Machine integers are modelled as `Nat` (no overflow is reachable in the modelled
paths: counts and sizes are small and only compared or copied).
-/

/-! ## API-server resource-id validation (`parsed_request.rs`) -/

/-- Errors of the API server's parsed-request layer that `checked_id` can
produce (`Error::EmptyID`, `Error::InvalidID`). -/
inductive ApiError where
  | emptyId
  | invalidId
  deriving DecidableEq

/-- Embedding of `checked_id` (parsed_request.rs lines 209-221).  Rust's
`char::is_alphanumeric` is a Unicode property; the embedding is parametric in
that character predicate and faithful to the control flow of the source. -/
def checked_id (isAlphanumeric : Char → Bool) (id : String) : Except ApiError String :=
  if id.isEmpty then .error .emptyId
  else if ! id.data.all (fun c => c == '_' || isAlphanumeric c) then .error .invalidId
  else .ok id

/-! ## Snapshot translator construction (`translator/mod.rs`) -/

/-- Semantic version (`snapshot::Version`): major.minor.patch. -/
structure Version where
  major : Nat
  minor : Nat
  patch : Nat
  deriving DecidableEq

/-- Model of `bincode::Error` restricted to the variants observable through the
translator tests: an unexpected end of input, or the custom
`"Incomplete buffer: size <n>"` error raised when a length-prefixed FFI byte
slice is too short for the target structure. -/
inductive BincodeError where
  | ioUnexpectedEof
  | customIncompleteBuffer (size : Nat)
  deriving DecidableEq

/-- The `translator::Error` (translator/mod.rs lines 8-12). -/
inductive TranslatorError where
  | deserializeErr (e : BincodeError)
  | serializeErr (e : BincodeError)
  | unimplementedSnapshotTranslator (pair : Version × Version)
  deriving DecidableEq

/-- The concrete translators that `create_snapshot_translator` can yield.  The
source has a single implementation, `IdentitySnapshotTranslator`. -/
inductive SnapshotTranslatorKind where
  | identity
  deriving DecidableEq

/-- Embedding of `create_snapshot_translator` (translator/mod.rs lines 35-46). -/
def create_snapshot_translator (current_app_version other_app_version : Version) :
    Except TranslatorError SnapshotTranslatorKind :=
  if current_app_version.major = other_app_version.major then
    .ok .identity
  else
    .error (.unimplementedSnapshotTranslator (current_app_version, other_app_version))

/-! ## Process exit codes (`vmm/src/lib.rs` lines 123-137) -/

/-- Success exit code. -/
def FC_EXIT_CODE_OK : Nat := 0
/-- Generic error exit code. -/
def FC_EXIT_CODE_GENERIC_ERROR : Nat := 1
/-- Exit code for an error considered impossible if the program logic is sound. -/
def FC_EXIT_CODE_UNEXPECTED_ERROR : Nat := 2
/-- Shut down after intercepting a restricted system call. -/
def FC_EXIT_CODE_BAD_SYSCALL : Nat := 148
/-- Shut down after intercepting SIGBUS. -/
def FC_EXIT_CODE_SIGBUS : Nat := 149
/-- Shut down after intercepting SIGSEGV. -/
def FC_EXIT_CODE_SIGSEGV : Nat := 150
/-- Failed to resume from a snapshot. -/
def FC_EXIT_CODE_RESUME_ERROR : Nat := 151

/-- All process exit codes declared by the VMM, in declaration order. -/
def fcExitCodes : List Nat :=
  [FC_EXIT_CODE_OK, FC_EXIT_CODE_GENERIC_ERROR, FC_EXIT_CODE_UNEXPECTED_ERROR,
   FC_EXIT_CODE_BAD_SYSCALL, FC_EXIT_CODE_SIGBUS, FC_EXIT_CODE_SIGSEGV,
   FC_EXIT_CODE_RESUME_ERROR]

/-! ## VMM lifecycle data model (`vmm/src/lib.rs`) -/

/-- Modelled from the spec: `InstanceState` lives in
`vmm_config/instance_info.rs`, which is not under src/.  The spec lists the
states `{Uninitialized, Starting, Running, Resuming, Halting, Halted}`. -/
inductive InstanceState where
  | uninitialized
  | starting
  | running
  | resuming
  | halting
  | halted
  deriving DecidableEq

/-- Modelled from the spec: the optional tagged `cpu_template` variant of
`VmConfig` (`vmm_config/machine_config.rs` is not under src/). -/
inductive CpuTemplate where
  | c3
  | t2
  deriving DecidableEq

/-- The `VmConfig` (machine configuration): four optional fields, as consumed by
`Vmm::set_vm_configuration` in lib.rs. -/
structure VmConfig where
  vcpu_count : Option Nat
  mem_size_mib : Option Nat
  ht_enabled : Option Bool
  cpu_template : Option CpuTemplate
  deriving DecidableEq

/-- Modelled from the spec: the default machine configuration (the resource
store is "created with defaults", every field populated and the defaults
satisfy the documented invariant: 1 vCPU, 128 MiB, hyperthreading off). -/
def VmConfig.default : VmConfig :=
  { vcpu_count := some 1, mem_size_mib := some 128,
    ht_enabled := some false, cpu_template := none }

/-- The `VmConfigError` variants used by lib.rs. -/
inductive VmConfigError where
  | invalidVcpuCount
  | invalidMemorySize
  | updateNotAllowedPostBoot
  deriving DecidableEq

/-- The `BootSourceConfigError` variants used by `configure_boot_source`. -/
inductive BootSourceConfigError where
  | invalidKernelPath
  | invalidKernelCommandLine
  | updateNotAllowedPostBoot
  deriving DecidableEq

/-- Kernel command-line error (`kernel::cmdline::Error`). -/
inductive CmdlineError where
  | commandLineOverflow
  deriving DecidableEq

/-- Modelled from the spec: the kernel command line (`kernel::cmdline::Cmdline`,
crate not under src/) is an append-only buffer of space-joined fragments,
bounded by a compile-time capacity; appending beyond the bound fails. -/
structure Cmdline where
  capacity : Nat
  fragments : List String
  deriving DecidableEq

/-- Byte length of the joined command line (fragments plus one separator or
terminator each), used for the capacity check. -/
def cmdlineLen (fragments : List String) : Nat :=
  (fragments.map String.length).sum + fragments.length

/-- Modelled from the spec: `Cmdline::insert_str` appends a fragment, failing
with `CommandLineOverflow` when the bounded buffer would overflow. -/
def Cmdline.insert_str (c : Cmdline) (s : String) : Except CmdlineError Cmdline :=
  if cmdlineLen (c.fragments ++ [s]) ≤ c.capacity then
    .ok { c with fragments := c.fragments ++ [s] }
  else
    .error .commandLineOverflow

/-- The `Cmdline::new(capacity)`. -/
def Cmdline.new (capacity : Nat) : Cmdline := { capacity := capacity, fragments := [] }

/-- Modelled from the spec: `arch::CMDLINE_MAX_SIZE` (arch crate not under
src/), the compile-time bound on the kernel command line. -/
def CMDLINE_MAX_SIZE : Nat := 4096

/-- Default guest kernel command line (lib.rs lines 119-120). -/
def DEFAULT_KERNEL_CMDLINE : String :=
  "reboot=k panic=1 pci=off nomodules 8250.nr_uarts=0 i8042.noaux i8042.nomux i8042.nopnp i8042.dumbkbd"

/-- A fragment is a `root=` fragment when its text starts with the five
characters `root=`. -/
def isRootFragment (f : String) : Bool :=
  match f.data with
  | c1 :: c2 :: c3 :: c4 :: c5 :: _ =>
    c1 == 'r' && c2 == 'o' && c3 == 'o' && c4 == 't' && c5 == '='
  | _ => false

/-- Number of `root=` fragments on a command line. -/
def rootFragmentCount (fragments : List String) : Nat :=
  (fragments.filter isRootFragment).length

/-- The `KernelConfig` (lib.rs): open kernel image handle (elided), the command
line, and (x86) the staging address (elided: never read by the modelled paths). -/
structure KernelConfig where
  cmdline : Cmdline
  deriving DecidableEq

/-- The `BlockDeviceConfig` fields read by the modelled paths. -/
structure BlockDeviceConfig where
  drive_id : String
  path_on_host : String
  is_root_device : Bool
  partuuid : Option String
  is_read_only : Bool
  deriving DecidableEq

/-- Modelled from the spec: `BlockDeviceConfigs::has_root_block_device`
(`vmm_config/drive.rs` is not under src/): whether some configured drive is the
root device. -/
def has_root_block_device (configs : List BlockDeviceConfig) : Bool :=
  configs.any (fun c => c.is_root_device)

/-- Modelled from the spec: `BlockDeviceConfigs::has_partuuid_root`: whether the
root drive, if any, carries a partuuid. -/
def has_partuuid_root (configs : List BlockDeviceConfig) : Bool :=
  configs.any (fun c => c.is_root_device && c.partuuid.isSome)

/-- Modelled from the spec: `BlockDeviceConfigs::has_read_only_root`: whether
the root drive, if any, is read-only. -/
def has_read_only_root (configs : List BlockDeviceConfig) : Bool :=
  configs.any (fun c => c.is_root_device && c.is_read_only)

/-- The resource-store invariant on block devices (spec §3): at most one drive
has `is_root_device` set. -/
def atMostOneRootDevice (configs : List BlockDeviceConfig) : Bool :=
  (configs.filter (fun c => c.is_root_device)).length ≤ 1

/-- The VMM state fields touched by the modelled lifecycle operations
(lib.rs `struct Vmm`): the shared instance state, the machine configuration,
the kernel configuration, the drive and network configuration store, and
whether a snapshot backing image is held. -/
structure VmmSt where
  instance_state : InstanceState
  vm_config : VmConfig
  kernel_config : Option KernelConfig
  block_device_configs : List BlockDeviceConfig
  net_iface_count : Nat
  snapshot_image : Bool
  deriving DecidableEq

/-- The `Vmm::is_instance_initialized` (lib.rs lines 1661-1666). -/
def is_instance_initialized (s : VmmSt) : Bool :=
  match s.instance_state with
  | .uninitialized => false
  | _ => true

/-- The `StateError` (used by `StartMicrovmError::MicroVMInvalidState` and friends). -/
inductive StateError where
  | microVMAlreadyRunning
  | microVMIsNotRunning
  | vcpusInvalidState
  deriving DecidableEq

/-- The `StartMicrovmError` variants reachable from the modelled boot sequence. -/
inductive StartMicrovmError where
  | microVMInvalidState (e : StateError)
  | missingKernelConfig
  | snapshotBackingFile
  | guestMemory
  | configureVm
  | legacyIOBus
  | openBlockDevice
  | createBlockDevice
  | registerBlockDevice
  | createNetDevice
  | registerNetDevice
  | netDeviceNotConfigured
  | kernelCmdline
  | kernelLoader
  | vcpu
  | vcpuConfigure
  | vcpuSpawn
  | configureSystem
  | loadCommandline
  | registerEvent
  | seccompFilters
  | signalVcpu
  | vcpuResume
  deriving DecidableEq

/-- Embedding of `Vmm::set_vm_configuration` (lib.rs lines 1832-1880).  The
source `unwrap()`s the stored `ht_enabled`/`vcpu_count` when defaulting; the
store always holds populated fields (it starts from the defaults), which the
embedding renders as `Option.getD`.  Returns the outcome together with the
post-state. -/
def set_vm_configuration (s : VmmSt) (machine_config : VmConfig) :
    Except VmConfigError Unit × VmmSt :=
  if is_instance_initialized s then (.error .updateNotAllowedPostBoot, s)
  else if machine_config.vcpu_count = some 0 then (.error .invalidVcpuCount, s)
  else if machine_config.mem_size_mib = some 0 then (.error .invalidMemorySize, s)
  else
    let ht_enabled := machine_config.ht_enabled.getD (s.vm_config.ht_enabled.getD false)
    let vcpu_count_value := machine_config.vcpu_count.getD (s.vm_config.vcpu_count.getD 0)
    if ht_enabled && decide (1 < vcpu_count_value) && vcpu_count_value % 2 == 1 then
      (.error .invalidVcpuCount, s)
    else
      let cfg :=
        { vcpu_count := some vcpu_count_value
          ht_enabled := some ht_enabled
          mem_size_mib :=
            if machine_config.mem_size_mib.isSome then machine_config.mem_size_mib
            else s.vm_config.mem_size_mib
          cpu_template :=
            if machine_config.cpu_template.isSome then machine_config.cpu_template
            else s.vm_config.cpu_template }
      (.ok (), { s with vm_config := cfg })

/-- Embedding of `Vmm::configure_boot_source` (lib.rs lines 1796-1830).
`kernel_image_ok` stands for whether `File::open(kernel_image_path)` succeeds. -/
def configure_boot_source (s : VmmSt) (kernel_image_ok : Bool)
    (kernel_cmdline : Option String) : Except BootSourceConfigError Unit × VmmSt :=
  if is_instance_initialized s then (.error .updateNotAllowedPostBoot, s)
  else if !kernel_image_ok then (.error .invalidKernelPath, s)
  else
    match (Cmdline.new CMDLINE_MAX_SIZE).insert_str
        (kernel_cmdline.getD DEFAULT_KERNEL_CMDLINE) with
    | .error _ => (.error .invalidKernelCommandLine, s)
    | .ok cmdline => (.ok (), { s with kernel_config := some { cmdline := cmdline } })

/-- Modelled from the spec: the `virtio_mmio.device=<len>@<addr>:<irq>` fragment
the device manager appends when registering a virtio device
(`device_manager/mmio.rs` is not under src/).  The address/irq formatting is
irrelevant to the proven properties; a representative instance is used. -/
def virtioMmioFragment : String := "virtio_mmio.device=4K@0xd0000000:5"

/-- The per-boot environment: which fallible boot steps succeed on this run.
Each field stands for the outcome of one effectful call of the boot sequence
whose implementation lives outside the modelled state. -/
structure BootEnv where
  create_snapshot_file_ok : Bool
  init_guest_memory_ok : Bool
  setup_interrupt_controller_ok : Bool
  open_block_files_ok : Bool
  register_block_device_ok : Bool
  create_net_devices_ok : Bool
  attach_legacy_devices_ok : Bool
  load_kernel_ok : Bool
  create_vcpus_ok : Bool
  configure_vcpus_ok : Bool
  configure_system_ok : Bool
  register_events_ok : Bool
  start_vcpus_ok : Bool
  seccomp_ok : Bool
  resume_vcpus_ok : Bool
  deriving DecidableEq

/-- The `root=PARTUUID=<uuid>`/`ro`/`rw` insertion for a partuuid root drive
(lib.rs lines 974-994). -/
def insertRootPartuuidFragments (cfg : BlockDeviceConfig) (cmdline : Cmdline) :
    Except StartMicrovmError Cmdline :=
  if cfg.is_root_device && cfg.partuuid.isSome then
    match cmdline.insert_str ("root=PARTUUID=" ++ cfg.partuuid.getD "") with
    | .error _ => .error .kernelCmdline
    | .ok c2 =>
      match c2.insert_str (if cfg.is_read_only then "ro" else "rw") with
      | .error _ => .error .kernelCmdline
      | .ok c3 => .ok c3
  else .ok cmdline

/-- The per-drive body of the `attach_block_devices` loop (lib.rs lines
966-1028): open the backing file, append the partuuid root fragments if
applicable, then register the device (which appends one
`virtio_mmio.device=...` fragment). -/
def attachOneBlockDevice (env : BootEnv) (cfg : BlockDeviceConfig) (cmdline : Cmdline) :
    Except StartMicrovmError Cmdline :=
  if !env.open_block_files_ok then .error .openBlockDevice
  else
    match insertRootPartuuidFragments cfg cmdline with
    | .error e => .error e
    | .ok c4 =>
      if !env.register_block_device_ok then .error .registerBlockDevice
      else
        match c4.insert_str virtioMmioFragment with
        | .error _ => .error .kernelCmdline
        | .ok c5 => .ok c5

/-- The drive loop of `attach_block_devices`. -/
def attachBlockDevicesLoop (env : BootEnv) (configs : List BlockDeviceConfig)
    (cmdline : Cmdline) : Except StartMicrovmError Cmdline :=
  match configs with
  | [] => .ok cmdline
  | cfg :: rest =>
    match attachOneBlockDevice env cfg cmdline with
    | .error e => .error e
    | .ok c2 => attachBlockDevicesLoop env rest c2

/-- The `root=/dev/vda`/`ro`/`rw` insertion when a root drive without partuuid
exists (lib.rs lines 939-959). -/
def insertRootVdaFragments (configs : List BlockDeviceConfig) (cmdline : Cmdline) :
    Except StartMicrovmError Cmdline :=
  if has_root_block_device configs && !has_partuuid_root configs then
    match cmdline.insert_str "root=/dev/vda" with
    | .error _ => .error .kernelCmdline
    | .ok c2 =>
      match c2.insert_str (if has_read_only_root configs then "ro" else "rw") with
      | .error _ => .error .kernelCmdline
      | .ok c3 => .ok c3
  else .ok cmdline

/-- Embedding of `Vmm::attach_block_devices` (lib.rs lines 932-1031), projected
onto its kernel-command-line effect: when a root drive without partuuid exists,
append `root=/dev/vda` and `ro`/`rw`; then run the drive loop. -/
def attach_block_devices (env : BootEnv) (configs : List BlockDeviceConfig)
    (cmdline : Cmdline) : Except StartMicrovmError Cmdline :=
  match insertRootVdaFragments configs cmdline with
  | .error e => .error e
  | .ok c4 => attachBlockDevicesLoop env configs c4

/-- Embedding of `Vmm::attach_net_devices` (lib.rs lines 1033-1094), projected
onto its command-line effect: each interface registration appends one
`virtio_mmio.device=...` fragment. -/
def attach_net_devices (env : BootEnv) (count : Nat) (cmdline : Cmdline) :
    Except StartMicrovmError Cmdline :=
  match count with
  | 0 => .ok cmdline
  | n + 1 =>
    if !env.create_net_devices_ok then .error .createNetDevice
    else
      match cmdline.insert_str virtioMmioFragment with
      | .error _ => .error .kernelCmdline
      | .ok c2 => attach_net_devices env n c2

/-- The fragments the drive loop appends for one drive. -/
def oneDeviceFragments (cfg : BlockDeviceConfig) : List String :=
  (if cfg.is_root_device && cfg.partuuid.isSome then
    ["root=PARTUUID=" ++ cfg.partuuid.getD "",
     if cfg.is_read_only then "ro" else "rw"]
  else []) ++ [virtioMmioFragment]

/-- The fragments the drive loop appends for a drive list. -/
def loopFragments (configs : List BlockDeviceConfig) : List String :=
  match configs with
  | [] => []
  | cfg :: rest => oneDeviceFragments cfg ++ loopFragments rest

/-- The root preamble fragments of `attach_block_devices`. -/
def rootPreambleFragments (configs : List BlockDeviceConfig) : List String :=
  if has_root_block_device configs && !has_partuuid_root configs then
    ["root=/dev/vda", if has_read_only_root configs then "ro" else "rw"]
  else []

/-- The fallible boot steps of `Vmm::start_microvm` (lib.rs lines 1540-1587),
x86-64 order: snapshot file, guest memory, interrupt controller, virtio
devices (blocks then nets, threading the kernel command line), legacy devices,
kernel load, vCPU creation and configuration, system configuration, event
registration, vCPU spawn, seccomp, resume.  Returns the final kernel command
line.  `bootTailSteps` holds the steps after device attachment, none of which
touches the command line. -/
def bootTailSteps (env : BootEnv) (cmdline : Cmdline) :
    Except StartMicrovmError Cmdline :=
  if !env.attach_legacy_devices_ok then .error .legacyIOBus
  else if !env.load_kernel_ok then .error .kernelLoader
  else if !env.create_vcpus_ok then .error .vcpu
  else if !env.configure_vcpus_ok then .error .vcpuConfigure
  else if !env.configure_system_ok then .error .configureSystem
  else if !env.register_events_ok then .error .registerEvent
  else if !env.start_vcpus_ok then .error .vcpuSpawn
  else if !env.seccomp_ok then .error .seccompFilters
  else if !env.resume_vcpus_ok then .error .vcpuResume
  else .ok cmdline

def boot_steps (env : BootEnv) (path : Option String) (s : VmmSt) :
    Except StartMicrovmError Cmdline :=
  if path.isSome && !env.create_snapshot_file_ok then .error .snapshotBackingFile
  else if !env.init_guest_memory_ok then .error .guestMemory
  else if !env.setup_interrupt_controller_ok then .error .configureVm
  else
    match attach_block_devices env s.block_device_configs
        ((s.kernel_config.getD { cmdline := Cmdline.new 0 }).cmdline) with
    | .error e => .error e
    | .ok cmdline =>
      match attach_net_devices env s.net_iface_count cmdline with
      | .error e => .error e
      | .ok cmdline => bootTailSteps env cmdline

/-- Embedding of `Vmm::start_microvm` (lib.rs lines 1523-1611), x86-64 path,
projected onto the modelled state: the pre-flight checks (already-initialized,
`check_health`) leave the state untouched; past them the instance state is set
to `Starting` before the boot steps run; a failing boot step returns its error
with the instance state left at `Starting` (the source has no reset on the
error path), and only full success sets `Running` and installs the extended
kernel command line and the snapshot image handle. -/
def start_microvm (env : BootEnv) (snapshot_path : Option String) (s : VmmSt) :
    Except StartMicrovmError Unit × VmmSt :=
  if is_instance_initialized s then
    (.error (.microVMInvalidState .microVMAlreadyRunning), s)
  else if s.kernel_config.isNone then
    -- `check_health` (lib.rs lines 1220-1225)
    (.error .missingKernelConfig, s)
  else
    let s1 := { s with instance_state := InstanceState.starting }
    match boot_steps env snapshot_path s with
    | .error e => (.error e, s1)
    | .ok cmdline =>
      (.ok (), { s1 with
        instance_state := InstanceState.running
        kernel_config := some { cmdline := cmdline }
        snapshot_image := snapshot_path.isSome })

/-! ## vCPU pause / snapshot serialization (`vmm/src/lib.rs`, x86-64) -/

/-- A serialized vCPU state blob (contents opaque to the modelled paths). -/
def VcpuStateBlob : Type := List Nat

instance : DecidableEq VcpuStateBlob := by
  unfold VcpuStateBlob; infer_instance

/-- The `VcpuResponse` variants consumed by the supervisor paths under scrutiny. -/
inductive VcpuResponse where
  | paused
  | resumed
  | pausedToSnapshot (state : VcpuStateBlob)
  | deserialized
  | saveStateFailed
  deriving DecidableEq

/-- One per-vCPU receive on the response channel: a response, or a
`RecvTimeoutError` (timeout or disconnection — a missing response). -/
inductive RecvOutcome where
  | received (r : VcpuResponse)
  | timedOut
  deriving DecidableEq

/-- The `PauseMicrovmError` variants reachable from the modelled pause path. -/
inductive PauseMicrovmError where
  | microVMInvalidState (e : StateError)
  | vcpuPause
  | invalidSnapshot
  | saveVcpuState
  | serializeVcpu
  | saveVmState
  | syncHeader
  | syncMemory
  | saveMmioDeviceState
  | signalVcpu
  deriving DecidableEq

/-- The `ResumeMicrovmError` variants (used only to type resume outcomes). -/
inductive ResumeMicrovmError where
  | microVMInvalidState (e : StateError)
  | openSnapshotFile
  | vcpuResume
  | deserializeVcpu
  | restoreVmState
  | restoreVcpuState
  | signalVcpu
  deriving DecidableEq

/-- The receive timeout, in milliseconds, used for each per-vCPU response while
collecting snapshot state (`serialize_microvm`, lib.rs line 2183:
`Duration::from_millis(400)`). -/
def serializeRecvTimeoutMillis : Nat := 400

/-- Environment for the snapshot serialization path: outcomes of the effectful
calls other than the per-vCPU receives. -/
structure SnapshotEnv where
  snapshot_image_present : Bool
  serialize_vcpu_ok : Bool
  save_vm_state_ok : Bool
  sync_header_ok : Bool
  guest_memory_present : Bool
  sync_memory_ok : Bool
  save_mmio_ok : Bool
  deriving DecidableEq

/-- First phase of `Vmm::serialize_microvm` (lib.rs lines 2177-2186): collect
every per-vCPU receive; any timeout/disconnection fails the whole collection
with `VcpuPause`. -/
def collectVcpuResponses (recvs : List RecvOutcome) :
    Except PauseMicrovmError (List VcpuResponse) :=
  match recvs with
  | [] => .ok []
  | .timedOut :: _ => .error .vcpuPause
  | .received r :: rest =>
    match collectVcpuResponses rest with
    | .error e => .error e
    | .ok others => .ok (r :: others)

/-- Second phase of `Vmm::serialize_microvm` (lib.rs lines 2188-2201): each
response must be `PausedToSnapshot(state)`, which is serialized into the
snapshot image; an explicit save failure or any other variant is an error. -/
def serializeVcpuResponses (env : SnapshotEnv) (responses : List VcpuResponse) :
    Except PauseMicrovmError Unit :=
  match responses with
  | [] => .ok ()
  | .pausedToSnapshot _ :: rest =>
    if !env.snapshot_image_present then .error .invalidSnapshot
    else if !env.serialize_vcpu_ok then .error .serializeVcpu
    else serializeVcpuResponses env rest
  | .saveStateFailed :: _ => .error .saveVcpuState
  | _ :: _ => .error .saveVcpuState

/-- Embedding of `Vmm::serialize_microvm` (lib.rs lines 2170-2227): collect
and serialize the per-vCPU states, then save the VM-wide state, sync the
snapshot header and sync the guest memory mapping. -/
def serialize_microvm (env : SnapshotEnv) (recvs : List RecvOutcome) :
    Except PauseMicrovmError Unit :=
  match collectVcpuResponses recvs with
  | .error e => .error e
  | .ok responses =>
    match serializeVcpuResponses env responses with
    | .error e => .error e
    | .ok _ =>
      if !env.snapshot_image_present then .error .invalidSnapshot
      else if !env.save_vm_state_ok then .error .saveVmState
      else if !env.sync_header_ok then .error .syncHeader
      else if !env.guest_memory_present then .error .syncMemory
      else if !env.sync_memory_ok then .error .syncMemory
      else .ok ()

/-- A receive outcome that `serialize_microvm` accepts: a received
`PausedToSnapshot` response. -/
def isGoodSnapshotRecv (r : RecvOutcome) : Bool :=
  match r with
  | .received (.pausedToSnapshot _) => true
  | _ => false

deriving instance DecidableEq for Except

/-- Result of the modelled `Vmm::pause_to_snapshot`: the outcome, whether a
`Resume` command was fanned out to every vCPU after a failure, and whether the
supervisor terminates the process afterwards (with which exit code). -/
structure PauseRunResult where
  outcome : Except PauseMicrovmError Unit
  resume_sent_to_all : Bool
  process_exit : Option Nat
  deriving DecidableEq

/-- Embedding of `Vmm::pause_to_snapshot` (lib.rs lines 2299-2332) composed
with its dispatch arm in `run_vmm_action` (lib.rs lines 2486-2495):
validate vCPUs, initiate the pause (barrier fan-out), serialize; a failure of
either fallible phase sends `Resume` to every vCPU and propagates the error;
only on success does the supervisor stop the process, with `FC_EXIT_CODE_OK`.
`vcpus_active` is the outcome of `validate_vcpus_are_active` and
`initiate_ok` the outcome of the `PauseToSnapshot` fan-out. -/
def pause_to_snapshot_run (vcpus_active : Bool) (initiate_ok : Bool)
    (env : SnapshotEnv) (recvs : List RecvOutcome) : PauseRunResult :=
  if !vcpus_active then
    { outcome := .error (.microVMInvalidState .microVMIsNotRunning)
      resume_sent_to_all := false, process_exit := none }
  else if !initiate_ok then
    { outcome := .error .signalVcpu, resume_sent_to_all := true, process_exit := none }
  else
    match serialize_microvm env recvs with
    | .error e =>
      { outcome := .error e, resume_sent_to_all := true, process_exit := none }
    | .ok () =>
      if !env.save_mmio_ok then
        { outcome := .error .saveMmioDeviceState, resume_sent_to_all := false
          process_exit := none }
      else
        { outcome := .ok (), resume_sent_to_all := false
          process_exit := some FC_EXIT_CODE_OK }

/-- The `ResumeFromSnapshot` dispatch arm of `run_vmm_action` (lib.rs lines
2505-2515): a failed resume terminates the process with
`FC_EXIT_CODE_RESUME_ERROR`; a successful one keeps it running. -/
def resume_from_snapshot_exit (result : Except ResumeMicrovmError Unit) : Option Nat :=
  match result with
  | .ok () => none
  | .error _ => some FC_EXIT_CODE_RESUME_ERROR

/-! ## Runtime (post-boot) controller (`rpc_interface/controllers.rs`) -/

/-- The `DriveError` variants used by the controllers. -/
inductive DriveError where
  | openBlockDevice
  | blockDeviceUpdateFailed
  | invalidBlockDeviceID
  deriving DecidableEq

/-- The `builder::StartMicrovmError` as used by the controllers (the builder crate
module is not under src/; only the variant named in controllers.rs is modelled). -/
inductive BuilderStartMicrovmError where
  | microVMAlreadyRunning
  deriving DecidableEq

/-- The `rpc_interface::VmmActionError` as used by controllers.rs (the
`rpc_interface` module root is not under src/; the constructors are those
applied in controllers.rs). -/
inductive RpcVmmActionError where
  | bootSource
  | logger
  | metrics
  | driveConfig (e : DriveError)
  | networkConfig
  | vsockConfig
  | machineConfig (e : VmConfigError)
  | startMicrovm (e : BuilderStartMicrovmError)
  | internalVmm
  | operationNotSupportedPreBoot
  | operationNotSupportedPostBoot
  deriving DecidableEq

/-- The `rpc_interface::VmmData`. -/
inductive RpcVmmData where
  | empty
  | machineConfiguration (cfg : VmConfig)
  deriving DecidableEq

/-- The `rpc_interface::VmmAction` (the separate-sender action shape consumed by
the pre-boot and runtime controllers; payloads irrelevant to dispatch are
elided). -/
inductive RpcVmmAction where
  | configureBootSource
  | configureLogger
  | configureMetrics
  | getVmConfiguration
  | flushMetrics
  | insertBlockDevice
  | insertNetworkDevice
  | setVsockDevice
  | setVmConfiguration
  | startMicroVm
  | sendCtrlAltDel
  | updateBlockDevicePath
  | updateNetworkInterface
  deriving DecidableEq

/-- Environment for the runtime controller: the outcomes of the live-device
operations it delegates to. -/
structure RuntimeEnv where
  vm_config : VmConfig
  flush_metrics_result : Except RpcVmmActionError Unit
  send_ctrl_alt_del_result : Except RpcVmmActionError Unit
  update_block_device_path_result : Except DriveError Unit
  update_net_rate_limiters_result : Except RpcVmmActionError Unit
  deriving DecidableEq

/-- Embedding of `RuntimeApiController::handle_request` (controllers.rs lines
168-199): the exact post-boot dispatch, including the distinguished treatment
of `StartMicroVm`. -/
def runtime_handle_request (env : RuntimeEnv) (request : RpcVmmAction) :
    Except RpcVmmActionError RpcVmmData :=
  match request with
  | .flushMetrics => env.flush_metrics_result.map fun _ => .empty
  | .getVmConfiguration => .ok (.machineConfiguration env.vm_config)
  | .sendCtrlAltDel => env.send_ctrl_alt_del_result.map fun _ => .empty
  | .updateBlockDevicePath =>
    (env.update_block_device_path_result.map fun _ => RpcVmmData.empty).mapError
      RpcVmmActionError.driveConfig
  | .updateNetworkInterface => env.update_net_rate_limiters_result.map fun _ => .empty
  | .configureBootSource | .configureLogger | .configureMetrics
  | .insertBlockDevice | .insertNetworkDevice | .setVsockDevice
  | .setVmConfiguration => .error .operationNotSupportedPostBoot
  | .startMicroVm => .error (.startMicrovm .microVMAlreadyRunning)

/-- The operations the runtime controller supports (claim C1's accepted set
restricted to the actions that exist in this controller's action type). -/
def isRuntimeSupportedAction (a : RpcVmmAction) : Bool :=
  match a with
  | .flushMetrics | .getVmConfiguration | .sendCtrlAltDel
  | .updateBlockDevicePath | .updateNetworkInterface => true
  | _ => false

/-! ## CPUID transformer (`cpuid/src/transformer/mod.rs`) -/

/-- The `kvm_cpuid_entry2`: one CPUID leaf. -/
structure KvmCpuidEntry2 where
  function : Nat
  index : Nat
  flags : Nat
  eax : Nat
  ebx : Nat
  ecx : Nat
  edx : Nat
  deriving DecidableEq

/-- The `VmSpec` (transformer/mod.rs lines 17-28). -/
structure VmSpec where
  cpu_vendor_id : List Nat
  cpu_id : Nat
  cpu_count : Nat
  ht_enabled : Bool
  brand_string : List Nat
  deriving DecidableEq

/-- The `cpuid::transformer::Error`. -/
inductive CpuidError where
  | vcpuCountOverflow
  | sizeLimitExceeded
  | internalError
  deriving DecidableEq

/-- An `EntryTransformerFn`: mutates one entry in place, or fails.  In-place
mutation is rendered as returning the new entry contents. -/
def EntryTransformerFn : Type :=
  KvmCpuidEntry2 → VmSpec → Except CpuidError KvmCpuidEntry2

/-- A `CpuidTransformer` is characterized by its `entry_transformer_fn` method:
the per-leaf selection of an optional transform (vendor-specific
implementations live in `intel.rs`/`amd.rs`; the processing pass is generic
over this selection). -/
structure CpuidTransformer where
  entry_transformer_fn : KvmCpuidEntry2 → Option EntryTransformerFn

/-- One iteration of the `process_entries` loop: apply the selected transform
to the entry, or keep it untouched when no transform is associated. -/
def applyEntry (t : CpuidTransformer) (vm_spec : VmSpec) (entry : KvmCpuidEntry2) :
    Except CpuidError KvmCpuidEntry2 :=
  match t.entry_transformer_fn entry with
  | none => .ok entry
  | some f => f entry vm_spec

/-- Embedding of `CpuidTransformer::process_entries` (transformer/mod.rs lines
79-89): walk the leaf vector, transforming each entry in place; stop at the
first transformer error.  Returns the outcome and the vector contents when the
pass returns (on an error, entries after the failure point are untouched). -/
def process_entries (t : CpuidTransformer) (cpuid : List KvmCpuidEntry2)
    (vm_spec : VmSpec) : Except CpuidError Unit × List KvmCpuidEntry2 :=
  match cpuid with
  | [] => (.ok (), [])
  | entry :: rest =>
    match applyEntry t vm_spec entry with
    | .error e => (.error e, entry :: rest)
    | .ok entry2 =>
      let (res, rest2) := process_entries t rest vm_spec
      (res, entry2 :: rest2)

/-- The entry an input leaf is mapped to when its transform succeeds (the
original leaf when it has no transform). -/
def applyEntryTotal (t : CpuidTransformer) (vm_spec : VmSpec)
    (entry : KvmCpuidEntry2) : KvmCpuidEntry2 :=
  match applyEntry t vm_spec entry with
  | .ok e2 => e2
  | .error _ => entry

/-- The first error produced by the per-leaf transforms, scanning left to
right. -/
def firstTransformError (t : CpuidTransformer) (vm_spec : VmSpec) :
    List KvmCpuidEntry2 → Option CpuidError
  | [] => none
  | entry :: rest =>
    match applyEntry t vm_spec entry with
    | .error e => some e
    | .ok _ => firstTransformError t vm_spec rest

/-! ## Snapshot deserialization (`translator/`, modelled from the spec)

The identity translator's `deserialize` and the `bincode`/`snapshot` layers it
relies on (`identity_snapshot_translator.rs`, `snapshot.rs`) are not under
src/; only their tests are.  The decoder below is modelled from the spec's
snapshot file layout (§6): a header `{magic, semantic_version, vm_info}`,
then the VM state — an FFI structure (`kvm_pit_state2`) length-prefixed as a
byte slice — then a count-prefixed sequence of per-vCPU state blobs.  Integers
are little-endian; slice lengths are host-word-sized.  A read past the end of
the input is an `UnexpectedEof` error; converting a length-prefixed byte slice
shorter than the target FFI structure is an `Incomplete buffer: size <n>`
error. -/

/-- Little-endian value of a byte list. -/
def leVal (bytes : List Nat) : Nat :=
  match bytes with
  | [] => 0
  | b :: rest => b + 256 * leVal rest

/-- A decoding step: consume a prefix of the input, producing a value and the
remaining bytes, or fail. -/
def Decoder (α : Type) : Type := List Nat → Except BincodeError (α × List Nat)

/-- Read exactly `n` raw bytes. -/
def readBytes (n : Nat) : Decoder (List Nat) := fun bs =>
  if n ≤ bs.length then .ok (bs.take n, bs.drop n) else .error .ioUnexpectedEof

/-- Sequencing of decoders. -/
def Decoder.bind (p : Decoder α) (f : α → Decoder β) : Decoder β := fun bs =>
  match p bs with
  | .error e => .error e
  | .ok (a, rest) => f a rest

/-- A decoder that consumes nothing. -/
def Decoder.pure (a : α) : Decoder α := fun bs => .ok (a, bs)

/-- A decoder that fails without consuming. -/
def Decoder.fail (e : BincodeError) : Decoder α := fun _ => .error e

/-- Read a host-word-sized (8-byte) little-endian unsigned integer. -/
def readU64 : Decoder Nat :=
  Decoder.bind (readBytes 8) fun w => Decoder.pure (leVal w)

/-- Byte size of the serialized `kvm_pit_state2` FFI structure. -/
def KVM_PIT_STATE2_SIZE : Nat := 112

/-- Byte size of one serialized per-vCPU state blob. -/
def VCPU_STATE_SIZE : Nat := 64

/-- Read a length-prefixed byte slice standing for an FFI structure of
`expected` bytes: the word-sized length, then that many bytes; a slice shorter
than the structure is an incomplete buffer. -/
def readFfiByteSlice (expected : Nat) : Decoder (List Nat) :=
  Decoder.bind readU64 fun len =>
  Decoder.bind (readBytes len) fun data =>
  if len < expected then Decoder.fail (.customIncompleteBuffer len)
  else Decoder.pure data

/-- Read `count` per-vCPU state blobs. -/
def readVcpuStates (count : Nat) : Decoder (List (List Nat)) :=
  match count with
  | 0 => Decoder.pure []
  | n + 1 =>
    Decoder.bind (readFfiByteSlice VCPU_STATE_SIZE) fun st =>
    Decoder.bind (readVcpuStates n) fun rest =>
    Decoder.pure (st :: rest)

/-- The decoded `MicrovmState`. -/
structure MicrovmState where
  magic : Nat
  app_version : Version
  mem_size_mib : Nat
  pit_state : List Nat
  vcpu_states : List (List Nat)
  deriving DecidableEq

/-- Modelled from the spec: the snapshot-content decoder underlying
`SnapshotTranslator::deserialize` — header (magic, semantic version), VM info,
the length-prefixed `kvm_pit_state2` byte slice, then the count-prefixed
per-vCPU states. -/
def decodeMicrovmState : Decoder MicrovmState :=
  Decoder.bind readU64 fun magic =>
  Decoder.bind readU64 fun major =>
  Decoder.bind readU64 fun minor =>
  Decoder.bind readU64 fun patch =>
  Decoder.bind readU64 fun mem_size_mib =>
  Decoder.bind (readFfiByteSlice KVM_PIT_STATE2_SIZE) fun pit =>
  Decoder.bind readU64 fun vcpu_count =>
  Decoder.bind (readVcpuStates vcpu_count) fun vcpus =>
  Decoder.pure
    { magic := magic, app_version := { major := major, minor := minor, patch := patch }
      mem_size_mib := mem_size_mib, pit_state := pit, vcpu_states := vcpus }

/-- The `SnapshotTranslator::deserialize` of the identity translator: run the
decoder, wrapping any decoding failure in `Error::Deserialize`.  Trailing bytes
are ignored, as with `bincode::deserialize`. -/
def snapshot_deserialize (bytes : List Nat) : Except TranslatorError MicrovmState :=
  match decodeMicrovmState bytes with
  | .ok (s, _) => .ok s
  | .error e => .error (.deserializeErr e)

/-- Little-endian encoding of a value on 8 bytes. -/
def leBytes8 (v : Nat) : List Nat :=
  [v % 256, v / 256 % 256, v / 256 ^ 2 % 256, v / 256 ^ 3 % 256,
   v / 256 ^ 4 % 256, v / 256 ^ 5 % 256, v / 256 ^ 6 % 256, v / 256 ^ 7 % 256]

/-- Modelled from the spec: the matching encoder (`serialize`), used to build
concrete well-formed snapshot byte images. -/
def encodeMicrovmState (s : MicrovmState) : List Nat :=
  leBytes8 s.magic ++ leBytes8 s.app_version.major ++ leBytes8 s.app_version.minor ++
  leBytes8 s.app_version.patch ++ leBytes8 s.mem_size_mib ++
  (leBytes8 s.pit_state.length ++ s.pit_state) ++
  leBytes8 s.vcpu_states.length ++
  (s.vcpu_states.map (fun st => leBytes8 st.length ++ st)).flatten

/-- The machine-configuration invariant of the resource store (spec §8
invariant 1, strengthened with field presence: the store starts from the
defaults, so every field is populated): at least one vCPU, at least one MiB of
memory, and an even or single vCPU count under hyperthreading. -/
def vmConfigStoreOk (c : VmConfig) : Bool :=
  match c.vcpu_count, c.mem_size_mib, c.ht_enabled with
  | some v, some m, some h => 1 ≤ v && 1 ≤ m && (!h || v == 1 || v % 2 == 0)
  | _, _, _ => false

/-! ## Theorems -/

/-- C10: for every id submitted to `checked_id`, the empty string is rejected
with `EmptyID`; a string containing a character that is neither alphanumeric
nor an underscore is rejected with `InvalidID`; every other string is accepted
and returned unchanged. -/
theorem checked_id_spec (isAlphanumeric : Char → Bool) (id : String) :
    (id = "" → checked_id isAlphanumeric id = .error .emptyId) ∧
    ((∃ c ∈ id.data, ¬(isAlphanumeric c = true ∨ c = '_')) →
      checked_id isAlphanumeric id = .error .invalidId) ∧
    (id ≠ "" → (∀ c ∈ id.data, isAlphanumeric c = true ∨ c = '_') →
      checked_id isAlphanumeric id = .ok id) := by
  refine ⟨?_, ?_, ?_⟩
  · intro h
    subst h
    rfl
  · rintro ⟨c, hc, hnot⟩
    have hne : id.isEmpty = false := by
      cases hempty : id.isEmpty with
      | false => rfl
      | true =>
        exfalso
        have hid : id = "" := (String.isEmpty_iff id).mp hempty
        subst hid
        simp [String.data] at hc
    have hall : (id.data.all fun c => c == '_' || isAlphanumeric c) = false := by
      cases h2 : id.data.all fun c => c == '_' || isAlphanumeric c with
      | false => rfl
      | true =>
        exfalso
        have := List.all_eq_true.mp h2 c hc
        simp only [Bool.or_eq_true, beq_iff_eq] at this
        exact hnot (this.elim (fun h3 => Or.inr h3) (fun h3 => Or.inl h3))
    simp [checked_id, hne, hall]
  · intro hne hall
    have hne2 : id.isEmpty = false := by
      cases hempty : id.isEmpty with
      | false => rfl
      | true => exact absurd ((String.isEmpty_iff id).mp hempty) hne
    have h2 : (id.data.all fun c => c == '_' || isAlphanumeric c) = true := by
      apply List.all_eq_true.mpr
      intro c hc
      simp only [Bool.or_eq_true, beq_iff_eq]
      exact (hall c hc).elim (fun h3 => Or.inr h3) (fun h3 => Or.inl h3)
    simp [checked_id, hne2, h2]

/-- Witness for C10 at concrete inputs. -/
theorem checked_id_spec_witness :
    checked_id Char.isAlphanum "rootfs_1" = .ok "rootfs_1" ∧
    checked_id Char.isAlphanum "" = .error .emptyId ∧
    checked_id Char.isAlphanum "a b" = .error .invalidId :=
  ⟨(checked_id_spec Char.isAlphanum "rootfs_1").2.2 (by decide) (by decide),
   (checked_id_spec Char.isAlphanum "").1 rfl,
   (checked_id_spec Char.isAlphanum "a b").2.1 ⟨' ', by decide, by decide⟩⟩

/-- C4: for every pair of semantic versions, translator construction yields the
identity translator exactly when the majors agree, and otherwise fails with
`UnimplementedSnapshotTranslator` carrying the pair `(current, other)`. -/
theorem create_snapshot_translator_spec (current other : Version) :
    (create_snapshot_translator current other = .ok .identity ↔
      current.major = other.major) ∧
    (current.major ≠ other.major →
      create_snapshot_translator current other =
        .error (.unimplementedSnapshotTranslator (current, other))) := by
  by_cases h : current.major = other.major <;>
    simp [create_snapshot_translator, h]

/-- Witness for C4 at concrete versions. -/
theorem create_snapshot_translator_spec_witness :
    create_snapshot_translator ⟨1, 2, 3⟩ ⟨1, 0, 0⟩ = .ok .identity ∧
    create_snapshot_translator ⟨0, 0, 0⟩ ⟨1, 0, 0⟩ =
      .error (.unimplementedSnapshotTranslator (⟨0, 0, 0⟩, ⟨1, 0, 0⟩)) :=
  ⟨(create_snapshot_translator_spec ⟨1, 2, 3⟩ ⟨1, 0, 0⟩).1.mpr rfl,
   (create_snapshot_translator_spec ⟨0, 0, 0⟩ ⟨1, 0, 0⟩).2 (by decide)⟩

/-- C8: the declared process exit codes are exactly 0 (OK), 1 (generic error),
2 (unexpected internal error), 148 (restricted syscall), 149 (bus signal),
150 (segfault) and 151 (snapshot-resume failure); a successful
`PauseToSnapshot` terminates the process with exit code 0, and a failed
`ResumeFromSnapshot` terminates it with exit code 151. -/
theorem exit_codes_spec :
    fcExitCodes = [0, 1, 2, 148, 149, 150, 151] ∧
    (∀ (active initiate_ok : Bool) (env : SnapshotEnv) (recvs : List RecvOutcome),
      (pause_to_snapshot_run active initiate_ok env recvs).outcome = .ok () →
      (pause_to_snapshot_run active initiate_ok env recvs).process_exit = some 0) ∧
    (∀ r : Except ResumeMicrovmError Unit, r.isOk = false →
      resume_from_snapshot_exit r = some 151) := by
  refine ⟨rfl, ?_, ?_⟩
  · intro active initiate_ok env recvs h
    cases active with
    | false => simp [pause_to_snapshot_run] at h
    | true =>
      cases initiate_ok with
      | false => simp [pause_to_snapshot_run] at h
      | true =>
        cases hser : serialize_microvm env recvs with
        | error e => simp [pause_to_snapshot_run, hser] at h
        | ok u =>
          cases hm : env.save_mmio_ok with
          | false => simp [pause_to_snapshot_run, hser, hm] at h
          | true => simp [pause_to_snapshot_run, hser, hm, FC_EXIT_CODE_OK]
  · intro r h
    cases r with
    | ok u => simp [Except.isOk, Except.toBool] at h
    | error e => rfl

/-- Witness for C8 at concrete outcomes. -/
theorem exit_codes_spec_witness :
    (pause_to_snapshot_run true true ⟨true, true, true, true, true, true, true⟩
      []).process_exit = some 0 ∧
    resume_from_snapshot_exit (.error .vcpuResume) = some 151 :=
  ⟨exit_codes_spec.2.1 true true ⟨true, true, true, true, true, true, true⟩ []
      (by decide),
   exit_codes_spec.2.2 (.error .vcpuResume) (by decide)⟩

/-- C1 counterexample: a post-boot `StartMicroVm`, which is not among the
supported runtime operations, does not return `OperationNotSupportedPostBoot`
(it returns `StartMicrovm(MicroVMAlreadyRunning)`), refuting the claim as
stated. -/
theorem runtime_start_microvm_counterexample :
    runtime_handle_request ⟨VmConfig.default, .ok (), .ok (), .ok (), .ok ()⟩
      .startMicroVm ≠ .error .operationNotSupportedPostBoot ∧
    runtime_handle_request ⟨VmConfig.default, .ok (), .ok (), .ok (), .ok ()⟩
      .startMicroVm = .error (.startMicrovm .microVMAlreadyRunning) := by
  constructor
  · decide
  · rfl

/-- C1 amended: every runtime request outside the supported set
(`FlushMetrics`, `GetVmConfiguration`, `SendCtrlAltDel`,
`UpdateBlockDevicePath`, `UpdateNetworkInterface`) other than `StartMicroVm`
fails with `OperationNotSupportedPostBoot`, while a post-boot `StartMicroVm`
fails with `StartMicrovm(MicroVMAlreadyRunning)`. -/
theorem runtime_handle_request_spec (env : RuntimeEnv) (a : RpcVmmAction)
    (hns : isRuntimeSupportedAction a = false) :
    (a ≠ .startMicroVm →
      runtime_handle_request env a = .error .operationNotSupportedPostBoot) ∧
    (a = .startMicroVm →
      runtime_handle_request env a = .error (.startMicrovm .microVMAlreadyRunning)) := by
  cases a <;> simp_all [runtime_handle_request, isRuntimeSupportedAction]

/-- Witness for the amended C1 at a concrete unsupported action. -/
theorem runtime_handle_request_spec_witness :
    runtime_handle_request ⟨VmConfig.default, .ok (), .ok (), .ok (), .ok ()⟩
      .insertBlockDevice = .error .operationNotSupportedPostBoot :=
  (runtime_handle_request_spec ⟨VmConfig.default, .ok (), .ok (), .ok (), .ok ()⟩
    .insertBlockDevice (by decide)).1 (by decide)

/-- C9: the CPUID entry-processing pass neither adds nor removes leaves — the
output vector has the same length in every case, and on success each position
holds the in-place transform of the corresponding input entry; the pass stops
at the first transformer error and returns it. -/
theorem process_entries_spec (t : CpuidTransformer) (cpuid : List KvmCpuidEntry2)
    (vm_spec : VmSpec) :
    (process_entries t cpuid vm_spec).2.length = cpuid.length ∧
    (process_entries t cpuid vm_spec).1 =
      (match firstTransformError t vm_spec cpuid with
       | some e => .error e
       | none => .ok ()) ∧
    (firstTransformError t vm_spec cpuid = none →
      (process_entries t cpuid vm_spec).2 = cpuid.map (applyEntryTotal t vm_spec)) := by
  induction cpuid with
  | nil => exact ⟨rfl, rfl, fun _ => rfl⟩
  | cons entry rest ih =>
    cases happ : applyEntry t vm_spec entry with
    | error e =>
      refine ⟨?_, ?_, ?_⟩
      · simp [process_entries, happ]
      · simp [process_entries, firstTransformError, happ]
      · intro hnone
        simp [firstTransformError, happ] at hnone
    | ok entry2 =>
      refine ⟨?_, ?_, ?_⟩
      · simp [process_entries, happ, ih.1]
      · simp [process_entries, firstTransformError, happ, ih.2.1]
      · intro hnone
        simp only [firstTransformError, happ] at hnone
        simp [process_entries, happ, ih.2.2 hnone, applyEntryTotal]

/-- Witness for C9 at a concrete transformer and leaf vector. -/
theorem process_entries_spec_witness :
    firstTransformError ⟨fun _ => none⟩ ⟨[], 0, 1, false, []⟩
      [⟨0, 0, 0, 0, 0, 0, 0⟩] = none ∧
    (process_entries ⟨fun _ => none⟩ [⟨0, 0, 0, 0, 0, 0, 0⟩]
      ⟨[], 0, 1, false, []⟩).2 =
      [⟨0, 0, 0, 0, 0, 0, 0⟩].map (applyEntryTotal ⟨fun _ => none⟩ ⟨[], 0, 1, false, []⟩) :=
  ⟨rfl,
   (process_entries_spec ⟨fun _ => none⟩ [⟨0, 0, 0, 0, 0, 0, 0⟩]
     ⟨[], 0, 1, false, []⟩).2.2 rfl⟩

/-- The `is_instance_initialized` is false exactly in the `Uninitialized` state. -/
theorem is_instance_initialized_uninit (s : VmmSt)
    (h : s.instance_state = .uninitialized) : is_instance_initialized s = false := by
  simp [is_instance_initialized, h]

/-- C3: pre-boot `SetVmConfiguration` rejects a zero (explicit or defaulted)
vcpu count with `InvalidVcpuCount`, a zero memory size with
`InvalidMemorySize`, and an odd vcpu count greater than one under
hyperthreading with `InvalidVcpuCount`; every rejection leaves the stored
machine configuration (and the whole VMM state) unchanged, and every accepted
configuration satisfies the store invariant. -/
theorem set_vm_configuration_spec (s : VmmSt) (mc : VmConfig)
    (hpre : s.instance_state = .uninitialized)
    (hinv : vmConfigStoreOk s.vm_config = true) :
    (mc.vcpu_count.getD (s.vm_config.vcpu_count.getD 0) = 0 →
      set_vm_configuration s mc = (.error .invalidVcpuCount, s)) ∧
    (mc.vcpu_count.getD (s.vm_config.vcpu_count.getD 0) ≠ 0 →
      mc.mem_size_mib.getD (s.vm_config.mem_size_mib.getD 0) = 0 →
      set_vm_configuration s mc = (.error .invalidMemorySize, s)) ∧
    (mc.mem_size_mib.getD (s.vm_config.mem_size_mib.getD 0) ≠ 0 →
      mc.ht_enabled.getD (s.vm_config.ht_enabled.getD false) = true →
      1 < mc.vcpu_count.getD (s.vm_config.vcpu_count.getD 0) →
      mc.vcpu_count.getD (s.vm_config.vcpu_count.getD 0) % 2 = 1 →
      set_vm_configuration s mc = (.error .invalidVcpuCount, s)) ∧
    (∀ e s2, set_vm_configuration s mc = (.error e, s2) → s2 = s) ∧
    (∀ s2, (set_vm_configuration s mc).1 = .ok () → (set_vm_configuration s mc).2 = s2 →
      vmConfigStoreOk s2.vm_config = true) := by
  have hii : is_instance_initialized s = false := is_instance_initialized_uninit s hpre
  obtain ⟨v, hv⟩ : ∃ v, s.vm_config.vcpu_count = some v := by
    cases h : s.vm_config.vcpu_count with
    | some v => exact ⟨v, rfl⟩
    | none => rw [vmConfigStoreOk, h] at hinv; simp at hinv
  obtain ⟨m, hm⟩ : ∃ m, s.vm_config.mem_size_mib = some m := by
    cases h : s.vm_config.mem_size_mib with
    | some m => exact ⟨m, rfl⟩
    | none =>
      rw [vmConfigStoreOk, h] at hinv
      cases s.vm_config.vcpu_count <;> simp at hinv
  obtain ⟨b, hb⟩ : ∃ b, s.vm_config.ht_enabled = some b := by
    cases h : s.vm_config.ht_enabled with
    | some b => exact ⟨b, rfl⟩
    | none =>
      rw [vmConfigStoreOk, h] at hinv
      cases s.vm_config.vcpu_count <;> cases s.vm_config.mem_size_mib <;> simp at hinv
  rw [vmConfigStoreOk, hv, hm, hb] at hinv
  simp only [Bool.and_eq_true, Bool.or_eq_true, decide_eq_true_eq, Bool.not_eq_true',
    beq_iff_eq, Nat.beq_eq_true_eq] at hinv
  obtain ⟨⟨hv1, hm1⟩, hht⟩ := hinv
  refine ⟨?_, ?_, ?_, ?_, ?_⟩
  · intro hzero
    have hmc : mc.vcpu_count = some 0 := by
      cases h : mc.vcpu_count with
      | some x => rw [h] at hzero; simp at hzero; rw [hzero]
      | none => rw [h, hv] at hzero; simp at hzero; omega
    simp [set_vm_configuration, hii, hmc]
  · intro hnz hzero
    have hmcv : mc.vcpu_count ≠ some 0 := by
      intro h; rw [h] at hnz; simp at hnz
    have hmc : mc.mem_size_mib = some 0 := by
      cases h : mc.mem_size_mib with
      | some x => rw [h] at hzero; simp at hzero; rw [hzero]
      | none => rw [h, hm] at hzero; simp at hzero; omega
    simp [set_vm_configuration, hii, hmcv, hmc]
  · intro hmnz hhtv hgt hodd
    have hmcv : mc.vcpu_count ≠ some 0 := by
      intro h; rw [h] at hgt; simp at hgt
    have hmcm : mc.mem_size_mib ≠ some 0 := by
      intro h; rw [h] at hmnz; simp at hmnz
    have hguard : (mc.ht_enabled.getD (s.vm_config.ht_enabled.getD false) &&
        decide (1 < mc.vcpu_count.getD (s.vm_config.vcpu_count.getD 0)) &&
        mc.vcpu_count.getD (s.vm_config.vcpu_count.getD 0) % 2 == 1) = true := by
      rw [hhtv, hodd]
      simp [hgt]
    simp only [set_vm_configuration, hii, Bool.false_eq_true, if_false]
    rw [if_neg hmcv, if_neg hmcm, if_pos hguard]
  · intro e s2 heq
    rw [set_vm_configuration] at heq
    rw [hii] at heq
    simp only [Bool.false_eq_true, if_false] at heq
    split at heq
    · exact (Prod.mk.injEq _ _ _ _ ▸ heq).2.symm ▸ rfl
    · split at heq
      · exact congrArg Prod.snd heq |>.symm
      · split at heq
        · exact congrArg Prod.snd heq |>.symm
        · exact absurd (congrArg Prod.fst heq) (by simp)
  · intro s2 hok heq
    by_cases h0 : mc.vcpu_count = some 0
    · simp [set_vm_configuration, hii, h0] at hok
    · by_cases h1 : mc.mem_size_mib = some 0
      · simp [set_vm_configuration, hii, h0, h1] at hok
      · by_cases h2 : (mc.ht_enabled.getD (s.vm_config.ht_enabled.getD false) &&
            decide (1 < mc.vcpu_count.getD (s.vm_config.vcpu_count.getD 0)) &&
            mc.vcpu_count.getD (s.vm_config.vcpu_count.getD 0) % 2 == 1) = true
        · simp [set_vm_configuration, hii, h0, h1, h2] at hok
        · have hs2 : s2.vm_config =
              { vcpu_count := some (mc.vcpu_count.getD (s.vm_config.vcpu_count.getD 0))
                mem_size_mib := if mc.mem_size_mib.isSome then mc.mem_size_mib
                  else s.vm_config.mem_size_mib
                ht_enabled := some (mc.ht_enabled.getD (s.vm_config.ht_enabled.getD false))
                cpu_template := if mc.cpu_template.isSome then mc.cpu_template
                  else s.vm_config.cpu_template } := by
            rw [← heq]
            simp [set_vm_configuration, hii, h0, h1, h2]
          have hevc1 : 1 ≤ mc.vcpu_count.getD (s.vm_config.vcpu_count.getD 0) := by
            cases h : mc.vcpu_count with
            | some x =>
              have hx : x ≠ 0 := fun hx => h0 (by rw [h, hx])
              simp only [h, Option.getD_some]
              omega
            | none =>
              simp only [h, Option.getD_none, hv, Option.getD_some]
              exact hv1
          have hguard : (!(mc.ht_enabled.getD (s.vm_config.ht_enabled.getD false)) ||
              mc.vcpu_count.getD (s.vm_config.vcpu_count.getD 0) == 1 ||
              mc.vcpu_count.getD (s.vm_config.vcpu_count.getD 0) % 2 == 0) = true := by
            cases hh : mc.ht_enabled.getD (s.vm_config.ht_enabled.getD false) with
            | false => simp
            | true =>
              rw [hh] at h2
              simp only [Bool.true_and, Bool.and_eq_true, decide_eq_true_eq,
                beq_iff_eq, not_and] at h2
              simp only [Bool.not_true, Bool.false_or, Bool.or_eq_true, beq_iff_eq]
              omega
          rw [hs2, vmConfigStoreOk]
          cases hmem : mc.mem_size_mib with
          | some x =>
            have hx : x ≠ 0 := fun hx => h1 (by rw [hmem, hx])
            simp only [hmem, Option.isSome_some, if_true]
            simp only [Bool.and_eq_true, decide_eq_true_eq]
            exact ⟨⟨hevc1, by omega⟩, hguard⟩
          | none =>
            simp only [hmem, Option.isSome_none, Bool.false_eq_true, if_false, hm]
            simp only [Bool.and_eq_true, decide_eq_true_eq]
            exact ⟨⟨hevc1, hm1⟩, hguard⟩

/-- Witness for C3: the spec's scenario `SetVmConfiguration{ht_enabled = true,
vcpu_count = 3}` against the default store fails with `InvalidVcpuCount` and
leaves the stored configuration unchanged. -/
theorem set_vm_configuration_spec_witness :
    set_vm_configuration
      ⟨.uninitialized, VmConfig.default, none, [], 0, false⟩
      ⟨some 3, none, some true, none⟩ =
      (.error .invalidVcpuCount, ⟨.uninitialized, VmConfig.default, none, [], 0, false⟩) :=
  (set_vm_configuration_spec
      ⟨.uninitialized, VmConfig.default, none, [], 0, false⟩
      ⟨some 3, none, some true, none⟩ rfl (by decide)).2.2.1
    (by decide) (by decide) (by decide) (by decide)

/-- Frame property of the boot sequence: `start_microvm` never writes the
machine configuration or the drive configuration store, on any path. -/
theorem start_microvm_frame (env : BootEnv) (path : Option String) (s : VmmSt) :
    ∀ r st, start_microvm env path s = (r, st) →
      st.vm_config = s.vm_config ∧ st.block_device_configs = s.block_device_configs := by
  intro r st heq
  rw [start_microvm] at heq
  split at heq
  · injection heq with h1 h2; subst h2; exact ⟨rfl, rfl⟩
  · split at heq
    · injection heq with h1 h2; subst h2; exact ⟨rfl, rfl⟩
    · split at heq
      · injection heq with h1 h2; subst h2; exact ⟨rfl, rfl⟩
      · injection heq with h1 h2; subst h2; exact ⟨rfl, rfl⟩

/-- A boot failure past the pre-flight checks leaves the instance state at
`Starting`: `start_microvm` only resets it on full success. -/
theorem start_microvm_error_starting (env : BootEnv) (path : Option String) (s : VmmSt)
    (hii : is_instance_initialized s = false) (hkn : s.kernel_config.isNone = false)
    (e : StartMicrovmError) :
    ∀ st, start_microvm env path s = (.error e, st) → st.instance_state = .starting := by
  intro st heq
  rw [start_microvm] at heq
  simp only [hii, Bool.false_eq_true, if_false, hkn] at heq
  split at heq
  · injection heq with h1 h2; subst h2; rfl
  · injection heq with h1 h2; exact Except.noConfusion h1

/-- The `is_instance_initialized` holds in the `Starting` state. -/
theorem is_instance_initialized_starting (s : VmmSt)
    (h : s.instance_state = .starting) : is_instance_initialized s = true := by
  simp [is_instance_initialized, h]

/-- C2 counterexample: from a configured pre-boot state, a `StartMicroVm` whose
guest-memory step fails leaves the instance state at `Starting`; contrary to
the claim, a subsequent `ConfigureBootSource` and `SetVmConfiguration` are
rejected (`UpdateNotAllowedPostBoot`) and a retried `StartMicroVm` fails with
`MicroVMAlreadyRunning`. -/
theorem start_microvm_failure_counterexample :
    (start_microvm
        ⟨true, false, true, true, true, true, true, true, true, true, true, true, true, true, true⟩
        none
        ⟨.uninitialized, VmConfig.default, some ⟨Cmdline.new CMDLINE_MAX_SIZE⟩, [], 0, false⟩).1 =
      .error .guestMemory ∧
    (configure_boot_source
        (start_microvm
          ⟨true, false, true, true, true, true, true, true, true, true, true, true, true, true, true⟩
          none
          ⟨.uninitialized, VmConfig.default, some ⟨Cmdline.new CMDLINE_MAX_SIZE⟩, [], 0, false⟩).2
        true none).1 = .error .updateNotAllowedPostBoot ∧
    (set_vm_configuration
        (start_microvm
          ⟨true, false, true, true, true, true, true, true, true, true, true, true, true, true, true⟩
          none
          ⟨.uninitialized, VmConfig.default, some ⟨Cmdline.new CMDLINE_MAX_SIZE⟩, [], 0, false⟩).2
        ⟨some 2, none, none, none⟩).1 = .error .updateNotAllowedPostBoot ∧
    (start_microvm
        ⟨true, true, true, true, true, true, true, true, true, true, true, true, true, true, true⟩
        none
        (start_microvm
          ⟨true, false, true, true, true, true, true, true, true, true, true, true, true, true, true⟩
          none
          ⟨.uninitialized, VmConfig.default, some ⟨Cmdline.new CMDLINE_MAX_SIZE⟩, [], 0, false⟩).2).1 =
      .error (.microVMInvalidState .microVMAlreadyRunning) := by
  refine ⟨rfl, rfl, rfl, rfl⟩

/-- C2 amended: when a boot step fails during `StartMicroVm`, the configuration
store (machine configuration, drives) is left intact, but the VMM does not
return to pre-boot: the instance state remains `Starting`, so subsequent
pre-boot configuration operations fail with `UpdateNotAllowedPostBoot` and a
retried `StartMicroVm` fails with `MicroVMAlreadyRunning`. -/
theorem start_microvm_failure_spec (env : BootEnv) (path : Option String) (s : VmmSt)
    (kc : KernelConfig) (hpre : s.instance_state = .uninitialized)
    (hk : s.kernel_config = some kc) (e : StartMicrovmError) (st : VmmSt)
    (hfail : start_microvm env path s = (.error e, st)) :
    st.vm_config = s.vm_config ∧
    st.block_device_configs = s.block_device_configs ∧
    st.instance_state = .starting ∧
    (∀ ok args, configure_boot_source st ok args = (.error .updateNotAllowedPostBoot, st)) ∧
    (∀ mc, set_vm_configuration st mc = (.error .updateNotAllowedPostBoot, st)) ∧
    (∀ env2 path2, start_microvm env2 path2 st =
      (.error (.microVMInvalidState .microVMAlreadyRunning), st)) := by
  have hii : is_instance_initialized s = false := is_instance_initialized_uninit s hpre
  have hkn : s.kernel_config.isNone = false := by rw [hk]; rfl
  have hframe := start_microvm_frame env path s (.error e) st hfail
  have hstarting := start_microvm_error_starting env path s hii hkn e st hfail
  have hii2 : is_instance_initialized st = true := is_instance_initialized_starting st hstarting
  refine ⟨hframe.1, hframe.2, hstarting, ?_, ?_, ?_⟩
  · intro ok args
    simp [configure_boot_source, hii2]
  · intro mc
    simp [set_vm_configuration, hii2]
  · intro env2 path2
    simp [start_microvm, hii2]

/-- Witness for the amended C2 at the concrete failing boot. -/
theorem start_microvm_failure_spec_witness :
    configure_boot_source
      ⟨.starting, VmConfig.default, some ⟨Cmdline.new CMDLINE_MAX_SIZE⟩, [], 0, false⟩
      true none =
      (.error .updateNotAllowedPostBoot,
        ⟨.starting, VmConfig.default, some ⟨Cmdline.new CMDLINE_MAX_SIZE⟩, [], 0, false⟩) ∧
    start_microvm
      ⟨true, true, true, true, true, true, true, true, true, true, true, true, true, true, true⟩
      none
      ⟨.starting, VmConfig.default, some ⟨Cmdline.new CMDLINE_MAX_SIZE⟩, [], 0, false⟩ =
      (.error (.microVMInvalidState .microVMAlreadyRunning),
        ⟨.starting, VmConfig.default, some ⟨Cmdline.new CMDLINE_MAX_SIZE⟩, [], 0, false⟩) :=
  ⟨(start_microvm_failure_spec
      ⟨true, false, true, true, true, true, true, true, true, true, true, true, true, true, true⟩
      none
      ⟨.uninitialized, VmConfig.default, some ⟨Cmdline.new CMDLINE_MAX_SIZE⟩, [], 0, false⟩
      ⟨Cmdline.new CMDLINE_MAX_SIZE⟩ rfl rfl .guestMemory
      ⟨.starting, VmConfig.default, some ⟨Cmdline.new CMDLINE_MAX_SIZE⟩, [], 0, false⟩
      rfl).2.2.2.1 true none,
   (start_microvm_failure_spec
      ⟨true, false, true, true, true, true, true, true, true, true, true, true, true, true, true⟩
      none
      ⟨.uninitialized, VmConfig.default, some ⟨Cmdline.new CMDLINE_MAX_SIZE⟩, [], 0, false⟩
      ⟨Cmdline.new CMDLINE_MAX_SIZE⟩ rfl rfl .guestMemory
      ⟨.starting, VmConfig.default, some ⟨Cmdline.new CMDLINE_MAX_SIZE⟩, [], 0, false⟩
      rfl).2.2.2.2.2
     ⟨true, true, true, true, true, true, true, true, true, true, true, true, true, true, true⟩
     none⟩

/-- A successful `insert_str` appends exactly the given fragment. -/
theorem insert_str_ok (c : Cmdline) (f : String) (c2 : Cmdline)
    (h : c.insert_str f = .ok c2) : c2.fragments = c.fragments ++ [f] := by
  rw [Cmdline.insert_str] at h
  split at h
  · injection h with h1; rw [← h1]
  · exact Except.noConfusion h

/-- A successful partuuid-root insertion appends exactly its fragments. -/
theorem insertRootPartuuidFragments_ok (cfg : BlockDeviceConfig) (c : Cmdline)
    (c2 : Cmdline) (h : insertRootPartuuidFragments cfg c = .ok c2) :
    c2.fragments = c.fragments ++
      (if cfg.is_root_device && cfg.partuuid.isSome then
        ["root=PARTUUID=" ++ cfg.partuuid.getD "",
         if cfg.is_read_only then "ro" else "rw"]
      else []) := by
  rw [insertRootPartuuidFragments] at h
  split at h
  · rename_i hguard
    split at h
    · exact Except.noConfusion h
    · rename_i cA hi1
      split at h
      · exact Except.noConfusion h
      · rename_i cB hi2
        injection h with h1
        subst h1
        rw [insert_str_ok cA _ _ hi2, insert_str_ok c _ _ hi1]
        simp [hguard]
  · rename_i hguard
    injection h with h1
    subst h1
    simp only [Bool.not_eq_true] at hguard
    simp [hguard]

/-- A successful per-drive attachment appends exactly that drive's fragments. -/
theorem attachOneBlockDevice_ok (env : BootEnv) (cfg : BlockDeviceConfig)
    (c : Cmdline) (c2 : Cmdline) (h : attachOneBlockDevice env cfg c = .ok c2) :
    c2.fragments = c.fragments ++ oneDeviceFragments cfg := by
  rw [attachOneBlockDevice] at h
  split at h
  · exact Except.noConfusion h
  · split at h
    · exact Except.noConfusion h
    · rename_i c4 hpre
      split at h
      · exact Except.noConfusion h
      · split at h
        · exact Except.noConfusion h
        · rename_i c5 hi3
          injection h with h1
          subst h1
          rw [oneDeviceFragments, insert_str_ok c4 _ _ hi3,
            insertRootPartuuidFragments_ok cfg c c4 hpre]
          simp

/-- A successful drive loop appends exactly the loop fragments. -/
theorem attachBlockDevicesLoop_ok (env : BootEnv) (configs : List BlockDeviceConfig) :
    ∀ c c2, attachBlockDevicesLoop env configs c = .ok c2 →
      c2.fragments = c.fragments ++ loopFragments configs := by
  induction configs with
  | nil =>
    intro c c2 h
    rw [attachBlockDevicesLoop] at h
    injection h with h1
    subst h1
    simp [loopFragments]
  | cons cfg rest ih =>
    intro c c2 h
    rw [attachBlockDevicesLoop] at h
    cases h1 : attachOneBlockDevice env cfg c with
    | error e => rw [h1] at h; exact Except.noConfusion h
    | ok cA =>
      rw [h1] at h
      rw [ih cA c2 h, attachOneBlockDevice_ok env cfg c cA h1]
      simp [loopFragments]

/-- A successful root-vda insertion appends exactly the root preamble. -/
theorem insertRootVdaFragments_ok (configs : List BlockDeviceConfig) (c : Cmdline)
    (c2 : Cmdline) (h : insertRootVdaFragments configs c = .ok c2) :
    c2.fragments = c.fragments ++ rootPreambleFragments configs := by
  rw [insertRootVdaFragments] at h
  rw [rootPreambleFragments]
  split at h
  · rename_i hguard
    split at h
    · exact Except.noConfusion h
    · rename_i cA hi1
      split at h
      · exact Except.noConfusion h
      · rename_i cB hi2
        injection h with h1
        subst h1
        rw [insert_str_ok cA _ _ hi2, insert_str_ok c _ _ hi1]
        simp [hguard]
  · rename_i hguard
    injection h with h1
    subst h1
    simp only [Bool.not_eq_true] at hguard
    simp [hguard]

/-- A successful `attach_block_devices` appends the root preamble followed by
the loop fragments. -/
theorem attach_block_devices_ok (env : BootEnv) (configs : List BlockDeviceConfig)
    (c : Cmdline) (c2 : Cmdline) (h : attach_block_devices env configs c = .ok c2) :
    c2.fragments = c.fragments ++ rootPreambleFragments configs ++ loopFragments configs := by
  rw [attach_block_devices] at h
  split at h
  · exact Except.noConfusion h
  · rename_i c4 hpre
    rw [attachBlockDevicesLoop_ok env configs c4 c2 h,
      insertRootVdaFragments_ok configs c c4 hpre]

/-- A successful `attach_net_devices` appends one `virtio_mmio.device=...`
fragment per interface. -/
theorem attach_net_devices_ok (env : BootEnv) (count : Nat) :
    ∀ c c2, attach_net_devices env count c = .ok c2 →
      c2.fragments = c.fragments ++ List.replicate count virtioMmioFragment := by
  induction count with
  | zero =>
    intro c c2 h
    rw [attach_net_devices] at h
    injection h with h1
    subst h1
    simp
  | succ n ih =>
    intro c c2 h
    rw [attach_net_devices] at h
    split at h
    · exact Except.noConfusion h
    · cases hi : c.insert_str virtioMmioFragment with
      | error e => rw [hi] at h; exact Except.noConfusion h
      | ok cA =>
        rw [hi] at h
        rw [ih cA c2 h, insert_str_ok c _ _ hi]
        simp [List.replicate_succ]

/-- The boot steps after device attachment return the command line unchanged. -/
theorem bootTailSteps_ok (env : BootEnv) (c : Cmdline) (c2 : Cmdline)
    (h : bootTailSteps env c = .ok c2) : c2 = c := by
  rw [bootTailSteps] at h
  repeat' split at h
  all_goals first
    | (injection h with h1; exact h1.symm)
    | exact Except.noConfusion h

/-- A successful boot decomposes into a successful block-device attachment
followed by a successful net-device attachment, which produce the final
command line. -/
theorem boot_steps_ok (env : BootEnv) (path : Option String) (s : VmmSt)
    (c : Cmdline) (h : boot_steps env path s = .ok c) :
    ∃ c1, attach_block_devices env s.block_device_configs
        ((s.kernel_config.getD { cmdline := Cmdline.new 0 }).cmdline) = .ok c1 ∧
      attach_net_devices env s.net_iface_count c1 = .ok c := by
  rw [boot_steps] at h
  split at h
  · exact Except.noConfusion h
  · split at h
    · exact Except.noConfusion h
    · split at h
      · exact Except.noConfusion h
      · split at h
        · exact Except.noConfusion h
        · rename_i c1 hatt
          split at h
          · exact Except.noConfusion h
          · rename_i c2 hnet
            exact ⟨c1, hatt, (bootTailSteps_ok env c2 c h) ▸ hnet⟩

/-- A successful `start_microvm` ran the boot steps to success and installed
the resulting command line. -/
theorem start_microvm_ok_decomp (env : BootEnv) (path : Option String)
    (s : VmmSt) (st : VmmSt) (h : start_microvm env path s = (.ok (), st)) :
    ∃ c, boot_steps env path s = .ok c ∧
      st.kernel_config = some { cmdline := c } ∧
      st.instance_state = .running := by
  rw [start_microvm] at h
  split at h
  · injection h with h1 h2; exact Except.noConfusion h1
  · split at h
    · injection h with h1 h2; exact Except.noConfusion h1
    · split at h
      · injection h with h1 h2; exact Except.noConfusion h1
      · rename_i c hbs
        injection h with h1 h2
        refine ⟨c, hbs, ?_, ?_⟩
        · rw [← h2]
        · rw [← h2]

/-- The `ro`, `rw` and device-registration fragments are not `root=` fragments;
`root=/dev/vda` is one. -/
theorem isRootFragment_basic :
    isRootFragment "ro" = false ∧ isRootFragment "rw" = false ∧
    isRootFragment virtioMmioFragment = false ∧
    isRootFragment "root=/dev/vda" = true := by decide

/-- Any `root=PARTUUID=...` fragment is a `root=` fragment. -/
theorem isRootFragment_partuuid (u : String) :
    isRootFragment ("root=PARTUUID=" ++ u) = true := by
  cases u with
  | mk data => rfl

/-- The `root=` fragment counting distributes over concatenation. -/
theorem rootFragmentCount_append (a b : List String) :
    rootFragmentCount (a ++ b) = rootFragmentCount a + rootFragmentCount b := by
  simp [rootFragmentCount, List.filter_append]

/-- A fragment list with no `root=` fragments counts zero. -/
theorem rootFragmentCount_zero (L : List String)
    (h : ∀ f ∈ L, isRootFragment f = false) : rootFragmentCount L = 0 := by
  simp only [rootFragmentCount, List.length_eq_zero]
  exact List.filter_eq_nil_iff.mpr (by simpa using h)

/-- Device-registration fragments are never `root=` fragments. -/
theorem rootFragmentCount_replicate_virtio (k : Nat) :
    rootFragmentCount (List.replicate k virtioMmioFragment) = 0 := by
  apply rootFragmentCount_zero
  intro f hf
  rw [List.eq_of_mem_replicate hf]
  rfl

/-- The fragments of one drive contain one `root=` fragment exactly when the
drive is a partuuid root drive. -/
theorem rootFragmentCount_oneDevice (cfg : BlockDeviceConfig) :
    rootFragmentCount (oneDeviceFragments cfg) =
      if cfg.is_root_device && cfg.partuuid.isSome then 1 else 0 := by
  rw [oneDeviceFragments]
  cases hguard : cfg.is_root_device && cfg.partuuid.isSome with
  | false => simp [rootFragmentCount, isRootFragment_basic.2.2.1]
  | true =>
    cases hro : cfg.is_read_only with
    | false =>
      simp [rootFragmentCount_append, rootFragmentCount, hro, List.filter,
        isRootFragment_partuuid, isRootFragment_basic.1, isRootFragment_basic.2.1,
        isRootFragment_basic.2.2.1]
    | true =>
      simp [rootFragmentCount_append, rootFragmentCount, hro, List.filter,
        isRootFragment_partuuid, isRootFragment_basic.1, isRootFragment_basic.2.1,
        isRootFragment_basic.2.2.1]

/-- The drive loop contributes one `root=` fragment per partuuid root drive. -/
theorem rootFragmentCount_loop (configs : List BlockDeviceConfig) :
    rootFragmentCount (loopFragments configs) =
      (configs.filter (fun c => c.is_root_device && c.partuuid.isSome)).length := by
  induction configs with
  | nil => rfl
  | cons cfg rest ih =>
    rw [loopFragments, rootFragmentCount_append, rootFragmentCount_oneDevice, ih]
    cases hguard : cfg.is_root_device && cfg.partuuid.isSome with
    | false => simp [List.filter, hguard]
    | true => simp [List.filter, hguard]; omega

/-- The root preamble contributes one `root=` fragment exactly when a root
drive without partuuid exists. -/
theorem rootFragmentCount_preamble (configs : List BlockDeviceConfig) :
    rootFragmentCount (rootPreambleFragments configs) =
      if has_root_block_device configs && !has_partuuid_root configs then 1 else 0 := by
  rw [rootPreambleFragments]
  cases hguard : has_root_block_device configs && !has_partuuid_root configs with
  | false => simp [rootFragmentCount]
  | true =>
    cases hro : has_read_only_root configs with
    | false =>
      simp [rootFragmentCount, List.filter, hro, isRootFragment_basic.1,
        isRootFragment_basic.2.1, isRootFragment_basic.2.2.2]
    | true =>
      simp [rootFragmentCount, List.filter, hro, isRootFragment_basic.1,
        isRootFragment_basic.2.1, isRootFragment_basic.2.2.2]

/-- With at most one root drive and a root drive present, the root filter is a
singleton. -/
theorem unique_root_filter (configs : List BlockDeviceConfig)
    (hone : atMostOneRootDevice configs = true)
    (hroot : has_root_block_device configs = true) :
    ∃ r, configs.filter (fun c => c.is_root_device) = [r] := by
  rw [atMostOneRootDevice] at hone
  rw [has_root_block_device] at hroot
  have hone2 : (configs.filter (fun c => c.is_root_device)).length ≤ 1 :=
    of_decide_eq_true hone
  obtain ⟨c, hc, hcr⟩ := List.any_eq_true.mp hroot
  have hmem : c ∈ configs.filter (fun c => c.is_root_device) :=
    List.mem_filter.mpr ⟨hc, hcr⟩
  match hfil : configs.filter (fun c => c.is_root_device) with
  | [] => rw [hfil] at hmem; simp at hmem
  | [r] => exact ⟨r, hfil⟩
  | r :: r2 :: rest => rw [hfil] at hone2; simp at hone2

/-- Every root drive in the list is the filtered singleton. -/
theorem root_elem_eq (configs : List BlockDeviceConfig) (r : BlockDeviceConfig)
    (hfil : configs.filter (fun c => c.is_root_device) = [r]) :
    ∀ c ∈ configs, c.is_root_device = true → c = r := by
  intro c hc hcr
  have hmem : c ∈ configs.filter (fun c => c.is_root_device) :=
    List.mem_filter.mpr ⟨hc, by simpa using hcr⟩
  rw [hfil] at hmem
  simpa using hmem

/-- The filtered singleton is a member and a root drive. -/
theorem root_filter_mem (configs : List BlockDeviceConfig) (r : BlockDeviceConfig)
    (hfil : configs.filter (fun c => c.is_root_device) = [r]) :
    r ∈ configs ∧ r.is_root_device = true := by
  have hmem : r ∈ configs.filter (fun c => c.is_root_device) := by
    rw [hfil]; simp
  have := List.mem_filter.mp hmem
  exact ⟨this.1, by simpa using this.2⟩

/-- With a unique root drive, `has_partuuid_root` is that drive's partuuid
presence. -/
theorem has_partuuid_root_unique (configs : List BlockDeviceConfig)
    (r : BlockDeviceConfig)
    (hfil : configs.filter (fun c => c.is_root_device) = [r]) :
    has_partuuid_root configs = r.partuuid.isSome := by
  obtain ⟨hrm, hrr⟩ := root_filter_mem configs r hfil
  cases hpu : r.partuuid.isSome with
  | true =>
    rw [has_partuuid_root]
    exact List.any_eq_true.mpr ⟨r, hrm, by rw [hrr, hpu]; rfl⟩
  | false =>
    rw [has_partuuid_root]
    cases hany : configs.any (fun c => c.is_root_device && c.partuuid.isSome) with
    | false => rfl
    | true =>
      obtain ⟨c, hc, hcb⟩ := List.any_eq_true.mp hany
      have hcr : c.is_root_device = true := by
        cases h : c.is_root_device
        · rw [h] at hcb; simp at hcb
        · rfl
      have hcu : c.partuuid.isSome = true := by
        cases h : c.partuuid.isSome
        · rw [h] at hcb; simp at hcb
        · rfl
      rw [root_elem_eq configs r hfil c hc hcr] at hcu
      rw [hcu] at hpu
      exact absurd hpu (by simp)

/-- With a unique root drive, `has_read_only_root` is that drive's read-only
flag. -/
theorem has_read_only_root_unique (configs : List BlockDeviceConfig)
    (r : BlockDeviceConfig)
    (hfil : configs.filter (fun c => c.is_root_device) = [r]) :
    has_read_only_root configs = r.is_read_only := by
  obtain ⟨hrm, hrr⟩ := root_filter_mem configs r hfil
  cases hro : r.is_read_only with
  | true =>
    rw [has_read_only_root]
    exact List.any_eq_true.mpr ⟨r, hrm, by rw [hrr, hro]; rfl⟩
  | false =>
    rw [has_read_only_root]
    cases hany : configs.any (fun c => c.is_root_device && c.is_read_only) with
    | false => rfl
    | true =>
      obtain ⟨c, hc, hcb⟩ := List.any_eq_true.mp hany
      have hcr : c.is_root_device = true := by
        cases h : c.is_root_device
        · rw [h] at hcb; simp at hcb
        · rfl
      have hcu : c.is_read_only = true := by
        cases h : c.is_read_only
        · rw [h] at hcb; simp at hcb
        · rfl
      rw [root_elem_eq configs r hfil c hc hcr] at hcu
      rw [hcu] at hro
      exact absurd hro (by simp)

/-- With a unique root drive, the partuuid-root filter is that drive when it
has a partuuid and empty otherwise. -/
theorem filter_partuuid_unique (configs : List BlockDeviceConfig)
    (r : BlockDeviceConfig)
    (hfil : configs.filter (fun c => c.is_root_device) = [r]) :
    configs.filter (fun c => c.is_root_device && c.partuuid.isSome) =
      if r.partuuid.isSome then [r] else [] := by
  have hcomm : (fun c : BlockDeviceConfig => c.is_root_device && c.partuuid.isSome) =
      (fun c : BlockDeviceConfig => c.partuuid.isSome && c.is_root_device) := by
    funext c
    exact Bool.and_comm _ _
  rw [hcomm, ← List.filter_filter, hfil]
  cases hpu : r.partuuid.isSome with
  | true => simp [List.filter, hpu]
  | false => simp [List.filter, hpu]

/-- The fragments of a partuuid root drive appear contiguously in the loop
fragments. -/
theorem loop_infix_partuuid (configs : List BlockDeviceConfig)
    (r : BlockDeviceConfig) (hr : r ∈ configs) (hroot : r.is_root_device = true)
    (u : String) (hpu : r.partuuid = some u) :
    List.IsInfix ["root=PARTUUID=" ++ u, if r.is_read_only then "ro" else "rw"]
      (loopFragments configs) := by
  induction configs with
  | nil => simp at hr
  | cons cfg rest ih =>
    rw [loopFragments]
    rcases List.mem_cons.mp hr with heq | hmem
    · subst heq
      rw [oneDeviceFragments]
      have hguard : (r.is_root_device && r.partuuid.isSome) = true := by
        rw [hroot, hpu]; rfl
      rw [if_pos hguard]
      have hgetd : r.partuuid.getD "" = u := by rw [hpu]; rfl
      rw [hgetd]
      exact ⟨[], [virtioMmioFragment] ++ loopFragments rest, by simp⟩
    · obtain ⟨a, b, hab⟩ := ih hmem
      exact ⟨oneDeviceFragments cfg ++ a, b, by rw [← hab]; simp⟩

/-- C6: after a successful `StartMicroVm`, the kernel command line contains
exactly one `root=` fragment iff a root block device is configured; a root
device without partuuid yields the fragment `root=/dev/vda` immediately
followed by `ro` (read-only root) or `rw`, and a root device with a partuuid
yields `root=PARTUUID=<uuid>` immediately followed by the same `ro`/`rw`
fragment. -/
theorem start_microvm_root_cmdline_spec (env : BootEnv) (path : Option String)
    (s : VmmSt) (st : VmmSt) (kc : KernelConfig)
    (hk : s.kernel_config = some kc)
    (hone : atMostOneRootDevice s.block_device_configs = true)
    (hbase : ∀ f ∈ kc.cmdline.fragments, isRootFragment f = false)
    (hok : start_microvm env path s = (.ok (), st)) :
    ∃ kc2, st.kernel_config = some kc2 ∧
      rootFragmentCount kc2.cmdline.fragments =
        (if has_root_block_device s.block_device_configs then 1 else 0) ∧
      (∀ r ∈ s.block_device_configs, r.is_root_device = true → r.partuuid = none →
        List.IsInfix ["root=/dev/vda", if r.is_read_only then "ro" else "rw"]
          kc2.cmdline.fragments) ∧
      (∀ r ∈ s.block_device_configs, ∀ u, r.is_root_device = true →
        r.partuuid = some u →
        List.IsInfix ["root=PARTUUID=" ++ u, if r.is_read_only then "ro" else "rw"]
          kc2.cmdline.fragments) := by
  obtain ⟨c, hbs, hkc2, _⟩ := start_microvm_ok_decomp env path s st hok
  obtain ⟨c1, hatt, hnet⟩ := boot_steps_ok env path s c hbs
  rw [hk, Option.getD_some] at hatt
  have hfrag : c.fragments = kc.cmdline.fragments ++
      rootPreambleFragments s.block_device_configs ++
      loopFragments s.block_device_configs ++
      List.replicate s.net_iface_count virtioMmioFragment := by
    rw [attach_net_devices_ok env s.net_iface_count c1 c hnet,
      attach_block_devices_ok env s.block_device_configs kc.cmdline c1 hatt]
  refine ⟨{ cmdline := c }, hkc2, ?_, ?_, ?_⟩
  · rw [hfrag, rootFragmentCount_append, rootFragmentCount_append,
      rootFragmentCount_append, rootFragmentCount_zero kc.cmdline.fragments hbase,
      rootFragmentCount_replicate_virtio, rootFragmentCount_preamble,
      rootFragmentCount_loop]
    cases hroot : has_root_block_device s.block_device_configs with
    | false =>
      have hempty : s.block_device_configs.filter
          (fun c => c.is_root_device && c.partuuid.isSome) = [] := by
        apply List.filter_eq_nil_iff.mpr
        intro c hc
        intro habs
        have hcr : c.is_root_device = true := by
          cases h : c.is_root_device
          · rw [h] at habs; simp at habs
          · rfl
        have : has_root_block_device s.block_device_configs = true := by
          rw [has_root_block_device]
          exact List.any_eq_true.mpr ⟨c, hc, hcr⟩
        rw [hroot] at this
        exact absurd this (by simp)
      simp [hroot, hempty]
    | true =>
      obtain ⟨r, hfil⟩ := unique_root_filter _ hone hroot
      have huuid := has_partuuid_root_unique _ r hfil
      have hfu := filter_partuuid_unique _ r hfil
      cases hpu : r.partuuid.isSome with
      | false =>
        rw [hpu] at huuid hfu
        simp [hroot, huuid, hfu]
      | true =>
        rw [hpu] at huuid hfu
        simp [hroot, huuid, hfu]
  · intro r hr hroot hpu
    have hrootb : has_root_block_device s.block_device_configs = true := by
      rw [has_root_block_device]
      exact List.any_eq_true.mpr ⟨r, hr, hroot⟩
    obtain ⟨r0, hfil⟩ := unique_root_filter _ hone hrootb
    have hr0 : r = r0 := root_elem_eq _ r0 hfil r hr hroot
    subst hr0
    have huuid := has_partuuid_root_unique _ r hfil
    have hro := has_read_only_root_unique _ r hfil
    have hguard : (has_root_block_device s.block_device_configs &&
        !has_partuuid_root s.block_device_configs) = true := by
      rw [hrootb, huuid, hpu]
      rfl
    have hpre : rootPreambleFragments s.block_device_configs =
        ["root=/dev/vda", if r.is_read_only then "ro" else "rw"] := by
      rw [rootPreambleFragments, if_pos hguard, hro]
    rw [hfrag, hpre]
    exact ⟨kc.cmdline.fragments,
      loopFragments s.block_device_configs ++
        List.replicate s.net_iface_count virtioMmioFragment,
      by simp⟩
  · intro r hr u hroot hpu
    obtain ⟨a, b, hab⟩ := loop_infix_partuuid s.block_device_configs r hr hroot u hpu
    rw [hfrag]
    exact ⟨kc.cmdline.fragments ++ rootPreambleFragments s.block_device_configs ++ a,
      b ++ List.replicate s.net_iface_count virtioMmioFragment,
      by rw [← hab]; simp⟩

/-- Witness for C6: the spec's end-to-end scenario — a read-write root drive
without partuuid on the default command line boots with `root=/dev/vda`
followed by `rw` and exactly one `root=` fragment. -/
theorem start_microvm_root_cmdline_spec_witness :
    ∃ kc2,
      (start_microvm
        ⟨true, true, true, true, true, true, true, true, true, true, true, true, true, true, true⟩
        none
        ⟨.uninitialized, VmConfig.default,
         some ⟨⟨CMDLINE_MAX_SIZE, [DEFAULT_KERNEL_CMDLINE]⟩⟩,
         [⟨"root", "/tmp/rootfs", true, none, false⟩], 0, false⟩).2.kernel_config =
        some kc2 ∧
      rootFragmentCount kc2.cmdline.fragments =
        (if has_root_block_device [⟨"root", "/tmp/rootfs", true, none, false⟩] then 1
         else 0) ∧
      (∀ r ∈ [(⟨"root", "/tmp/rootfs", true, none, false⟩ : BlockDeviceConfig)],
        r.is_root_device = true → r.partuuid = none →
        List.IsInfix ["root=/dev/vda", if r.is_read_only then "ro" else "rw"]
          kc2.cmdline.fragments) ∧
      (∀ r ∈ [(⟨"root", "/tmp/rootfs", true, none, false⟩ : BlockDeviceConfig)],
        ∀ u, r.is_root_device = true → r.partuuid = some u →
        List.IsInfix ["root=PARTUUID=" ++ u, if r.is_read_only then "ro" else "rw"]
          kc2.cmdline.fragments) :=
  start_microvm_root_cmdline_spec
    ⟨true, true, true, true, true, true, true, true, true, true, true, true, true, true, true⟩
    none
    ⟨.uninitialized, VmConfig.default,
     some ⟨⟨CMDLINE_MAX_SIZE, [DEFAULT_KERNEL_CMDLINE]⟩⟩,
     [⟨"root", "/tmp/rootfs", true, none, false⟩], 0, false⟩
    (start_microvm
      ⟨true, true, true, true, true, true, true, true, true, true, true, true, true, true, true⟩
      none
      ⟨.uninitialized, VmConfig.default,
       some ⟨⟨CMDLINE_MAX_SIZE, [DEFAULT_KERNEL_CMDLINE]⟩⟩,
       [⟨"root", "/tmp/rootfs", true, none, false⟩], 0, false⟩).2
    ⟨⟨CMDLINE_MAX_SIZE, [DEFAULT_KERNEL_CMDLINE]⟩⟩
    rfl (by decide) (by decide) (by decide)

/-- A successful response collection contains no timeout. -/
theorem collectVcpuResponses_ok (recvs : List RecvOutcome) :
    ∀ resp, collectVcpuResponses recvs = .ok resp →
      ∀ r ∈ recvs, ∃ v, r = .received v ∧ v ∈ resp := by
  induction recvs with
  | nil =>
    intro resp h r hr
    simp at hr
  | cons r0 rest ih =>
    intro resp h r hr
    cases r0 with
    | timedOut => exact Except.noConfusion h
    | received v0 =>
      rw [collectVcpuResponses] at h
      cases hc : collectVcpuResponses rest with
      | error e => rw [hc] at h; exact Except.noConfusion h
      | ok others =>
        rw [hc] at h
        injection h with h1
        subst h1
        rcases List.mem_cons.mp hr with heq | hmem
        · exact ⟨v0, heq, List.mem_cons_self _ _⟩
        · obtain ⟨v, hv1, hv2⟩ := ih others hc r hmem
          exact ⟨v, hv1, List.mem_cons_of_mem _ hv2⟩

/-- A successful per-response serialization saw only `PausedToSnapshot`
responses. -/
theorem serializeVcpuResponses_ok (env : SnapshotEnv) (responses : List VcpuResponse) :
    serializeVcpuResponses env responses = .ok () →
    ∀ v ∈ responses, ∃ st, v = .pausedToSnapshot st := by
  induction responses with
  | nil =>
    intro h v hv
    simp at hv
  | cons v0 rest ih =>
    intro h v hv
    cases v0 with
    | pausedToSnapshot st0 =>
      rw [serializeVcpuResponses] at h
      split at h
      · exact Except.noConfusion h
      · split at h
        · exact Except.noConfusion h
        · rcases List.mem_cons.mp hv with heq | hmem
          · exact ⟨st0, heq⟩
          · exact ih h v hmem
    | paused => exact Except.noConfusion h
    | resumed => exact Except.noConfusion h
    | deserialized => exact Except.noConfusion h
    | saveStateFailed => exact Except.noConfusion h

/-- A successful `serialize_microvm` saw a received `PausedToSnapshot` response
from every vCPU. -/
theorem serialize_microvm_ok (env : SnapshotEnv) (recvs : List RecvOutcome)
    (h : serialize_microvm env recvs = .ok ()) :
    ∀ r ∈ recvs, isGoodSnapshotRecv r = true := by
  intro r hr
  rw [serialize_microvm] at h
  split at h
  · exact Except.noConfusion h
  · rename_i responses hc
    split at h
    · exact Except.noConfusion h
    · rename_i u hs
      obtain ⟨v, hv1, hv2⟩ := collectVcpuResponses_ok recvs responses hc r hr
      obtain ⟨st, hst⟩ := serializeVcpuResponses_ok env responses hs v hv2
      rw [hv1, hst]
      rfl

/-- C7: the per-vCPU snapshot states are collected with the bounded 400 ms
receive timeout; if any vCPU response is missing/timed out or is not a
successful `PausedToSnapshot`, the pause fails with an error, `Resume` is
fanned out to every vCPU, and the supervisor keeps the VMM process running
(no exit). -/
theorem pause_to_snapshot_failure_spec (initiate_ok : Bool) (env : SnapshotEnv)
    (recvs : List RecvOutcome)
    (hbad : ∃ r ∈ recvs, isGoodSnapshotRecv r = false) :
    serializeRecvTimeoutMillis = 400 ∧
    (∃ e, (pause_to_snapshot_run true initiate_ok env recvs).outcome = .error e) ∧
    (pause_to_snapshot_run true initiate_ok env recvs).resume_sent_to_all = true ∧
    (pause_to_snapshot_run true initiate_ok env recvs).process_exit = none := by
  refine ⟨rfl, ?_⟩
  cases initiate_ok with
  | false =>
    simp [pause_to_snapshot_run]
  | true =>
    cases hser : serialize_microvm env recvs with
    | error e =>
      simp [pause_to_snapshot_run, hser]
    | ok u =>
      exfalso
      cases u
      obtain ⟨r, hr, hbadr⟩ := hbad
      have := serialize_microvm_ok env recvs hser r hr
      rw [hbadr] at this
      exact absurd this (by simp)

/-- Witness for C7: one vCPU times out; the pause fails, `Resume` is fanned
out, and the process stays alive. -/
theorem pause_to_snapshot_failure_spec_witness :
    serializeRecvTimeoutMillis = 400 ∧
    (∃ e, (pause_to_snapshot_run true true
      ⟨true, true, true, true, true, true, true⟩
      [.received (.pausedToSnapshot []), .timedOut]).outcome = .error e) ∧
    (pause_to_snapshot_run true true ⟨true, true, true, true, true, true, true⟩
      [.received (.pausedToSnapshot []), .timedOut]).resume_sent_to_all = true ∧
    (pause_to_snapshot_run true true ⟨true, true, true, true, true, true, true⟩
      [.received (.pausedToSnapshot []), .timedOut]).process_exit = none :=
  pause_to_snapshot_failure_spec true ⟨true, true, true, true, true, true, true⟩
    [.received (.pausedToSnapshot []), .timedOut]
    ⟨.timedOut, by simp, rfl⟩

/-- Evaluation of a decoder bind on a successful first component. -/
theorem Decoder.bind_eval_ok (p : Decoder α) (f : α → Decoder β) (bs : List Nat)
    (a : α) (rest : List Nat) (h : p bs = .ok (a, rest)) :
    Decoder.bind p f bs = f a rest := by
  simp only [Decoder.bind]
  rw [h]

/-- Evaluation of a decoder bind on a failing first component. -/
theorem Decoder.bind_eval_error (p : Decoder α) (bs : List Nat) (e : BincodeError)
    (h : p bs = .error e) : ∀ f : α → Decoder β, Decoder.bind p f bs = .error e := by
  intro f
  simp only [Decoder.bind]
  rw [h]

/-- The `readBytes` consumes exactly a leading chunk of its length. -/
theorem readBytes_append (l r : List Nat) (n : Nat) (h : l.length = n) :
    readBytes n (l ++ r) = .ok (l, r) := by
  rw [readBytes, if_pos (by simp [← h]), List.take_left' h, List.drop_left' h]

/-- The `readU64` consumes exactly eight bytes. -/
theorem readU64_append (l r : List Nat) (h : l.length = 8) :
    readU64 (l ++ r) = .ok (leVal l, r) := by
  rw [readU64, Decoder.bind_eval_ok _ _ _ _ _ (readBytes_append l r 8 h)]
  rfl

/-- Rewriting form of `readU64_append` for chains of binds. -/
theorem bind_readU64_append (l : List Nat) (h : l.length = 8) :
    ∀ (f : Nat → Decoder α) (r : List Nat),
      Decoder.bind readU64 f (l ++ r) = f (leVal l) r := by
  intro f r
  exact Decoder.bind_eval_ok _ _ _ _ _ (readU64_append l r h)

/-- The `readBytes 0` consumes nothing. -/
theorem readBytes_zero (bs : List Nat) : readBytes 0 bs = .ok ([], bs) := by
  rw [readBytes, if_pos (Nat.zero_le _)]
  rfl

/-- A zero length prefix on the FFI byte slice yields the incomplete-buffer
error with size 0. -/
theorem readFfiByteSlice_zero_len (rest : List Nat) :
    readFfiByteSlice KVM_PIT_STATE2_SIZE (List.replicate 8 0 ++ rest) =
      .error (.customIncompleteBuffer 0) := by
  have hval : leVal (List.replicate 8 0) = 0 := by rfl
  rw [readFfiByteSlice,
    Decoder.bind_eval_ok _ _ _ _ _ (readU64_append (List.replicate 8 0) rest (by simp))]
  rw [hval]
  rw [Decoder.bind_eval_ok _ _ _ _ _ (readBytes_zero rest)]
  rw [if_pos (by rw [KVM_PIT_STATE2_SIZE]; omega)]
  rfl

/-- The decoder reports `Incomplete buffer: size 0` on any snapshot whose
`kvm_pit_state2` byte-slice length field (the word at offset 40, after the
header and VM info) is zero. -/
theorem decode_zero_pit_len (b1 b2 b3 b4 b5 rest : List Nat)
    (h1 : b1.length = 8) (h2 : b2.length = 8) (h3 : b3.length = 8)
    (h4 : b4.length = 8) (h5 : b5.length = 8) :
    decodeMicrovmState
      (b1 ++ (b2 ++ (b3 ++ (b4 ++ (b5 ++ (List.replicate 8 0 ++ rest)))))) =
      .error (.customIncompleteBuffer 0) := by
  simp only [decodeMicrovmState, bind_readU64_append b1 h1, bind_readU64_append b2 h2,
    bind_readU64_append b3 h3, bind_readU64_append b4 h4, bind_readU64_append b5 h5,
    Decoder.bind_eval_error _ _ _ (readFfiByteSlice_zero_len rest)]

/-- A decoder consumes a definite prefix: on success it returns the true
suffix, it fails with `UnexpectedEof` on any truncation strictly inside the
consumed prefix, and it succeeds with the same value on any truncation at or
past the consumed prefix. -/
def DecoderConsumes (p : Decoder α) : Prop :=
  ∀ bs a rest, p bs = .ok (a, rest) →
    ∃ k, k ≤ bs.length ∧ rest = bs.drop k ∧
      (∀ n, n < k → p (bs.take n) = .error .ioUnexpectedEof) ∧
      (∀ n, k ≤ n → n ≤ bs.length → p (bs.take n) = .ok (a, (bs.take n).drop k))

/-- The `readBytes` consumes a definite prefix. -/
theorem consumes_readBytes (m : Nat) : DecoderConsumes (α := List Nat) (readBytes m) := by
  intro bs a rest h
  rw [readBytes] at h
  split at h
  · rename_i hle
    injection h with h1
    injection h1 with ha hrest
    refine ⟨m, hle, hrest.symm, ?_, ?_⟩
    · intro n hn
      rw [readBytes, if_neg ?hc]
      case hc =>
        rw [List.length_take]
        omega
    · intro n hk hlen
      rw [readBytes, if_pos ?hc]
      case hc =>
        rw [List.length_take]
        omega
      rw [List.take_take]
      have hmin : m ⊓ n = m := by omega
      rw [hmin, ha]
  · exact Except.noConfusion h

/-- The `Decoder.pure` consumes nothing. -/
theorem consumes_pure (a : α) : DecoderConsumes (Decoder.pure a) := by
  intro bs a0 rest h
  rw [Decoder.pure] at h
  injection h with h1
  injection h1 with ha hrest
  refine ⟨0, Nat.zero_le _, by rw [← hrest, List.drop_zero], ?_, ?_⟩
  · intro n hn
    omega
  · intro n h0 hlen
    rw [Decoder.pure, ha, List.drop_zero]

/-- The `Decoder.fail` has no successful run. -/
theorem consumes_fail (e : BincodeError) : DecoderConsumes (α := α) (Decoder.fail e) := by
  intro bs a rest h
  exact Except.noConfusion h

/-- Binds of consuming decoders consume. -/
theorem consumes_bind (p : Decoder α) (f : α → Decoder β)
    (hp : DecoderConsumes p) (hf : ∀ a, DecoderConsumes (f a)) :
    DecoderConsumes (Decoder.bind p f) := by
  intro bs b rest h
  simp only [Decoder.bind] at h
  cases hps : p bs with
  | error e => rw [hps] at h; exact Except.noConfusion h
  | ok pr =>
    obtain ⟨a, mid⟩ := pr
    rw [hps] at h
    obtain ⟨k1, hk1le, hmid, herr1, hok1⟩ := hp bs a mid hps
    obtain ⟨k2, hk2le, hrest, herr2, hok2⟩ := hf a mid b rest h
    have hmidlen : mid.length = bs.length - k1 := by
      rw [hmid, List.length_drop]
    refine ⟨k1 + k2, by omega, ?_, ?_, ?_⟩
    · rw [hrest, hmid, List.drop_drop]
    · intro n hn
      by_cases hcase : n < k1
      · exact Decoder.bind_eval_error p _ _ (herr1 n hcase) f
      · have hstep : p (bs.take n) = .ok (a, mid.take (n - k1)) := by
          rw [hok1 n (by omega) (by omega), List.drop_take, ← hmid]
        rw [Decoder.bind_eval_ok p f _ _ _ hstep]
        exact herr2 (n - k1) (by omega)
    · intro n hkn hnlen
      have hstep : p (bs.take n) = .ok (a, mid.take (n - k1)) := by
        rw [hok1 n (by omega) hnlen, List.drop_take, ← hmid]
      rw [Decoder.bind_eval_ok p f _ _ _ hstep]
      rw [hok2 (n - k1) (by omega) (by omega)]
      have hfin : (List.take (n - k1) mid).drop k2 = (bs.take n).drop (k1 + k2) := by
        rw [hmid, ← List.drop_take, List.drop_drop]
      rw [hfin]

/-- The `readU64` consumes a definite prefix. -/
theorem consumes_readU64 : DecoderConsumes readU64 := by
  rw [readU64]
  exact consumes_bind _ _ (consumes_readBytes 8) (fun w => consumes_pure (leVal w))

/-- The `readFfiByteSlice` consumes a definite prefix. -/
theorem consumes_readFfiByteSlice (expected : Nat) :
    DecoderConsumes (readFfiByteSlice expected) := by
  rw [readFfiByteSlice]
  refine consumes_bind _ _ consumes_readU64 fun len => ?_
  refine consumes_bind _ _ (consumes_readBytes len) fun data => ?_
  by_cases hcase : len < expected
  · rw [if_pos hcase]
    exact consumes_fail _
  · rw [if_neg hcase]
    exact consumes_pure data

/-- The `readVcpuStates` consumes a definite prefix. -/
theorem consumes_readVcpuStates (count : Nat) :
    DecoderConsumes (readVcpuStates count) := by
  induction count with
  | zero => exact consumes_pure []
  | succ n ih =>
    rw [readVcpuStates]
    refine consumes_bind _ _ (consumes_readFfiByteSlice VCPU_STATE_SIZE) fun st => ?_
    exact consumes_bind _ _ ih fun others => consumes_pure (st :: others)

/-- The full snapshot decoder consumes a definite prefix. -/
theorem consumes_decodeMicrovmState : DecoderConsumes decodeMicrovmState := by
  rw [decodeMicrovmState]
  refine consumes_bind _ _ consumes_readU64 fun magic => ?_
  refine consumes_bind _ _ consumes_readU64 fun major => ?_
  refine consumes_bind _ _ consumes_readU64 fun minor => ?_
  refine consumes_bind _ _ consumes_readU64 fun patch => ?_
  refine consumes_bind _ _ consumes_readU64 fun mem => ?_
  refine consumes_bind _ _ (consumes_readFfiByteSlice KVM_PIT_STATE2_SIZE) fun pit => ?_
  refine consumes_bind _ _ consumes_readU64 fun vcpu_count => ?_
  exact consumes_bind _ _ (consumes_readVcpuStates vcpu_count) fun vcpus => consumes_pure _

/-- C5: the snapshot translator's deserialize is total — every byte input
yields a state or a `Deserialize` error, never anything else; truncating a
successfully decoded snapshot anywhere strictly inside its consumed bytes
yields `Deserialize(UnexpectedEof)`; and a snapshot whose serialized FFI
byte-slice length field (the word after header and VM info) is zero yields a
`Deserialize` error reporting an incomplete buffer of size 0. -/
theorem snapshot_deserialize_spec :
    (∀ bytes, (∃ s, snapshot_deserialize bytes = .ok s) ∨
      (∃ e, snapshot_deserialize bytes = .error (.deserializeErr e))) ∧
    (∀ bytes s rest, decodeMicrovmState bytes = .ok (s, rest) →
      ∀ n, n < bytes.length - rest.length →
        snapshot_deserialize (bytes.take n) =
          .error (.deserializeErr .ioUnexpectedEof)) ∧
    (∀ b1 b2 b3 b4 b5 rest : List Nat, b1.length = 8 → b2.length = 8 →
      b3.length = 8 → b4.length = 8 → b5.length = 8 →
      snapshot_deserialize
        (b1 ++ (b2 ++ (b3 ++ (b4 ++ (b5 ++ (List.replicate 8 0 ++ rest)))))) =
        .error (.deserializeErr (.customIncompleteBuffer 0))) := by
  refine ⟨?_, ?_, ?_⟩
  · intro bytes
    cases hd : decodeMicrovmState bytes with
    | ok pr =>
      obtain ⟨s, r⟩ := pr
      exact Or.inl ⟨s, by rw [snapshot_deserialize, hd]⟩
    | error e =>
      exact Or.inr ⟨e, by rw [snapshot_deserialize, hd]⟩
  · intro bytes s rest hok n hn
    obtain ⟨k, hkle, hrestk, herr, _⟩ := consumes_decodeMicrovmState bytes s rest hok
    have hklen : rest.length = bytes.length - k := by
      rw [hrestk, List.length_drop]
    rw [snapshot_deserialize, herr n (by omega)]
  · intro b1 b2 b3 b4 b5 rest h1 h2 h3 h4 h5
    rw [snapshot_deserialize, decode_zero_pit_len b1 b2 b3 b4 b5 rest h1 h2 h3 h4 h5]

set_option maxRecDepth 100000 in
/-- Witness for C5: a concrete serialized snapshot decodes successfully;
truncated at byte 20 it reports `UnexpectedEof`; with its pit length field
zeroed it reports `Incomplete buffer: size 0`. -/
theorem snapshot_deserialize_spec_witness :
    snapshot_deserialize
      ((encodeMicrovmState ⟨42, ⟨1, 0, 0⟩, 128, List.replicate 112 7, []⟩).take 20) =
      .error (.deserializeErr .ioUnexpectedEof) ∧
    snapshot_deserialize
      (List.replicate 8 1 ++ (List.replicate 8 2 ++ (List.replicate 8 3 ++
        (List.replicate 8 4 ++ (List.replicate 8 5 ++
          (List.replicate 8 0 ++ List.replicate 120 7)))))) =
      .error (.deserializeErr (.customIncompleteBuffer 0)) :=
  ⟨snapshot_deserialize_spec.2.1
      (encodeMicrovmState ⟨42, ⟨1, 0, 0⟩, 128, List.replicate 112 7, []⟩)
      ⟨42, ⟨1, 0, 0⟩, 128, List.replicate 112 7, []⟩ [] (by decide) 20 (by decide),
   snapshot_deserialize_spec.2.2 (List.replicate 8 1) (List.replicate 8 2)

     (List.replicate 8 3) (List.replicate 8 4) (List.replicate 8 5)
     (List.replicate 120 7) (by decide) (by decide) (by decide) (by decide) (by decide)⟩
